import Mathlib

/-!
Shallow embedding of the medallion pipeline of this repository:
the silver cleaning stage (`src/flows/silver_ingestion.py`, with its Spark
variant `src/flows/silver_ingestion_spark.py`) and the gold aggregation stage
(`src/flows/gold_ingestion.py`).

Tables are lists of rows.  pandas timestamps are modelled as integer day
numbers (all dates in the claims are whole days).  Python floats are modelled
as exact rationals; Python ints as `Int`.  Fallible code (pandas `astype`
raising `ValueError`, the final `ZeroDivisionError` on an empty input) is
modelled in `Except String`.
-/

deriving instance DecidableEq for Except

/- Batteries marks the `Rat` field operations `@[irreducible]`, which blocks
`decide` from evaluating concrete pipeline runs; restore the default
reducibility so closed theorems about concrete tables can be checked by
evaluation. -/
set_option allowUnsafeReducibility true in
attribute [semireducible] Rat.add Rat.mul Rat.div Rat.sub Rat.neg Rat.inv

namespace BigData

/-- A raw CSV cell as pandas sees it after `read_csv`: missing (NaN),
a number, or a string. -/
inductive RawCell where
  | null : RawCell
  | num (q : ℚ) : RawCell
  | strv (s : String) : RawCell
deriving DecidableEq, Repr

/-- A raw date cell, keyed by the outcome of `pd.to_datetime(errors="coerce")`
(the only consumer of the cell): missing, unparsable, or a concrete day. -/
inductive RawDate where
  | null : RawDate
  | invalid : RawDate
  | valid (d : Int) : RawDate
deriving DecidableEq, Repr

/-- Missingness test (`pd.isna`) on a cell. -/
def RawCell.isNull : RawCell → Bool
  | .null => true
  | _ => false

/-- Whether a cell is a string (pandas `astype(int)` / `astype(float)` can
raise only on these; numeric cells coerce and nulls are dropped upstream). -/
def RawCell.isStr : RawCell → Bool
  | .strv _ => true
  | _ => false

/-- The `fillna` operation on one cell. -/
def fillCell (c : RawCell) (sentinel : String) : RawCell :=
  match c with
  | .null => .strv sentinel
  | c => c

/-- Leading/trailing-whitespace removal of a char list. -/
def trimChars (cs : List Char) : List Char :=
  ((cs.dropWhile Char.isWhitespace).reverse.dropWhile
    Char.isWhitespace).reverse

/-- Python `str.strip()` / pandas `.str.strip()`. -/
def strTrim (s : String) : String := ⟨trimChars s.data⟩

/-- Python `str.lower()` (the repository's data is ASCII). -/
def strLower (s : String) : String := ⟨s.data.map Char.toLower⟩

/-- Split a char list at every occurrence of `sep` (like `str.split(sep)`:
`n` separators yield `n + 1` pieces, possibly empty). -/
def splitChar (sep : Char) : List Char → List (List Char)
  | [] => [[]]
  | c :: cs =>
    let r := splitChar sep cs
    if c = sep then [] :: r
    else
      match r with
      | [] => [[c]]
      | h :: t => (c :: h) :: t

/-- The numeric value of a nonempty all-digit char list. -/
def digitsToNat? (cs : List Char) : Option ℕ :=
  match cs with
  | [] => none
  | _ =>
    cs.foldl (fun acc c =>
      acc.bind fun n =>
        if 48 ≤ c.toNat ∧ c.toNat ≤ 57 then some (10 * n + (c.toNat - 48))
        else none) (some 0)

/-- Lexicographic strict comparison of char lists (by code point, as both
Python and pandas compare strings). -/
def charsLt : List Char → List Char → Bool
  | [], [] => false
  | [], _ :: _ => true
  | _ :: _, [] => false
  | c :: cs, d :: ds =>
    if c < d then true else if d < c then false else charsLt cs ds

/-- The `astype(str)` rendering of a cell (post-`fillna`, so `.null` is unreachable). -/
def cellToString : RawCell → String
  | .null => "nan"
  | .num q => toString q
  | .strv s => s

/-- Stable keep-first insertion of `x` into `l` under `le`. -/
def insSorted (le : α → α → Bool) (x : α) : List α → List α
  | [] => [x]
  | y :: ys => if le x y then x :: y :: ys else y :: insSorted le x ys

/-- Stable insertion sort (models pandas `sort_values` ascending and Spark
`orderBy`; both are deterministic on the unique keys used here). -/
def insSortBy (le : α → α → Bool) : List α → List α
  | [] => []
  | x :: xs => insSorted le x (insSortBy le xs)

/-- Worker for `drop_duplicates(keep="first")` on a key, with the already-seen keys
accumulated in `seen`. -/
def dedupByKeyAux [DecidableEq β] (key : α → β) (seen : List β) : List α → List α
  | [] => []
  | x :: xs =>
    if key x ∈ seen then dedupByKeyAux key seen xs
    else x :: dedupByKeyAux key (key x :: seen) xs

/-- The `drop_duplicates(keep="first")` operation on a key. -/
def dedupByKey [DecidableEq β] (key : α → β) (l : List α) : List α :=
  dedupByKeyAux key [] l

/-- The `Series.nunique` count: number of distinct values. -/
def nuniqueBy [DecidableEq β] (key : α → β) (l : List α) : Int :=
  (dedupByKey id (l.map key)).length

/-- Truncation of a rational toward zero, the rounding of `astype(int)` and of
Spark's `cast(IntegerType)` on doubles. -/
def truncRat (q : ℚ) : Int := q.num.tdiv q.den

/-- Comparison used to sort rationals. -/
def ratLe (a b : ℚ) : Bool := decide (a ≤ b)

/-- Lexicographic comparison on strings (pandas group keys sort). -/
def strLe (a b : String) : Bool := !(charsLt b.data a.data)

/-- Row-wise fallible column coercion (the effect of `astype` on a column:
the first failing row aborts the whole assignment). -/
def mapExcept (f : α → Except String β) : List α → Except String (List β)
  | [] => .ok []
  | x :: xs => do
    let y ← f x
    let ys ← mapExcept f xs
    .ok (y :: ys)

/-- pandas `Series.quantile(p)` with the default linear interpolation:
sort, take position `p * (n - 1)`, interpolate between the two neighbours. -/
def panQuantile (l : List ℚ) (p : ℚ) : ℚ :=
  let s := insSortBy ratLe l
  let n := s.length
  let pos : ℚ := p * ((n : ℚ) - 1)
  let i : ℕ := (⌊pos⌋).toNat
  let a := s.getD i 0
  let b := s.getD (i + 1) a
  a + (pos - (⌊pos⌋ : ℚ)) * (b - a)

/-! ### Email validation

`clean_clients_data` validates emails against
`^[a-zA-Z0-9._%+-]+@[a-zA-Z0-9.-]+\.[a-zA-Z]{2,}$` (anchored both ends).
Since neither character class contains `@` and the TLD class contains no dot,
a string matches iff it splits as `local@domain.tld` with the tld taken after
the last dot. -/

/-- Characters allowed in the local part of the email pattern. -/
def localChar (c : Char) : Bool :=
  c.isAlphanum || c = '.' || c = '_' || c = '%' || c = '+' || c = '-'

/-- Characters allowed in the domain part of the email pattern. -/
def domainChar (c : Char) : Bool :=
  c.isAlphanum || c = '.' || c = '-'

/-- The email regex of `clean_clients_data`, as a decision procedure. -/
def validEmail (s : String) : Bool :=
  match splitChar '@' s.data with
  | [lc, dc] =>
    let tld := (dc.reverse.takeWhile (fun c => c ≠ '.')).reverse
    let dom := dc.take (dc.length - tld.length - 1)
    decide (lc ≠ []) && lc.all localChar &&
    decide (tld.length < dc.length) &&
    decide (2 ≤ tld.length) && tld.all Char.isAlpha &&
    decide (dom ≠ []) && dom.all domainChar
  | _ => false

/-! ### Numeric coercion (`astype`, Python `int()` / `float()`)

pandas `astype(int)` on an object column applies Python `int` to each value:
numeric strings convert, anything else raises `ValueError`.  `astype(float)`
likewise applies `float`.  Scientific notation and `inf`/`nan` literals are
not modelled (no claim exercises them). -/

/-- Sign handling shared by the numeric string parsers: strip whitespace and
one optional leading sign. -/
def signAndDigits (s : String) : Bool × List Char :=
  match trimChars s.data with
  | '-' :: rest => (true, rest)
  | '+' :: rest => (false, rest)
  | rest => (false, rest)

/-- Python `int(s)` on a string: optional sign, decimal digits. -/
def parseIntStr (s : String) : Option Int :=
  let (neg, cs) := signAndDigits s
  (digitsToNat? cs).map fun n => if neg then -(n : Int) else (n : Int)

/-- Python `float(s)` on a string: optional sign, decimal digits with an
optional fractional part (scientific notation and `inf`/`nan` literals are
not modelled; no claim exercises them). -/
def parseFloatStr (s : String) : Option ℚ :=
  let (neg, cs) := signAndDigits s
  let sgn : ℚ := if neg then -1 else 1
  match splitChar '.' cs with
  | [a] => (digitsToNat? a).map fun n => sgn * (n : ℚ)
  | [a, b] =>
    if a = [] ∧ b = [] then none
    else do
      let ia ← if a = [] then some 0 else digitsToNat? a
      let ib ← if b = [] then some 0 else digitsToNat? b
      some (sgn * ((ia : ℚ) + (ib : ℚ) / ((10 : ℚ) ^ b.length)))
  | _ => none

/-- The `astype(int)` coercion of one cell.  NaN raises ("Cannot convert non-finite values
to integer"); floats truncate toward zero; strings go through `int()`. -/
def coerceIntCell : RawCell → Except String Int
  | .null => .error "astype int: cannot convert NaN to integer"
  | .num q => .ok (truncRat q)
  | .strv s =>
    match parseIntStr s with
    | some n => .ok n
    | none => .error ("astype int: invalid literal " ++ s)

/-- The `astype(float)` coercion of one cell.  NaN is kept by pandas; it is unreachable
here because step 1 drops rows with a null amount, and is represented by `0`,
which like NaN fails the later `amount > 0` filter.  Strings go through
`float()`, raising when unparsable. -/
def coerceFloatCell : RawCell → Except String ℚ
  | .null => .ok 0
  | .num q => .ok q
  | .strv s =>
    match parseFloatStr s with
    | some q => .ok q
    | none => .error ("astype float: could not convert " ++ s)

/-- Is a date cell missing (NaN/NaT before parsing)? -/
def RawDate.isNull : RawDate → Bool
  | .null => true
  | _ => false

/-- Did `to_datetime(errors="coerce")` produce a real timestamp? -/
def dateIsValid : RawDate → Bool
  | .valid _ => true
  | _ => false

/-- The `date ≤ now` filter on a parsed date column (NaT compares false). -/
def dateLeToday (today : Int) : RawDate → Bool
  | .valid d => decide (d ≤ today)
  | _ => false

/-- The day number of a parsed date cell; rows reaching the consumers of this
function have passed the `dropna` after coercion, so `.valid` is guaranteed. -/
def dateDay : RawDate → Int
  | .valid d => d
  | _ => 0

/-! ### Silver cleaning: clients (`clean_clients_data`, pandas) -/

/-- A raw clients row as loaded from bronze. -/
structure RawClient where
  client_id : RawCell
  name : RawCell
  email : RawCell
  country : RawCell
  date_inscription : RawDate
deriving DecidableEq, Repr

/-- A cleaned clients row. -/
structure CleanClient where
  client_id : Int
  name : String
  email : String
  country : String
  date_inscription : Int
deriving DecidableEq, Repr

/-- The cleaning-stats record of `clean_clients_data`. -/
structure CStats where
  initial_rows : Int
  removed_null_critical : Int
  removed_duplicates : Int
  removed_invalid_dates : Int
  removed_invalid_emails : Int
  final_rows : Int
  data_loss_percentage : ℚ
deriving DecidableEq, Repr

/-- Step 1: `dropna(subset=["client_id", "email"])`. -/
def cCritOk (r : RawClient) : Bool :=
  !r.client_id.isNull && !r.email.isNull

/-- Step 1 on the table. -/
def cStep1 (df : List RawClient) : List RawClient := df.filter cCritOk

/-- Step 2 on one row: `fillna` of `name` and `country` with "Unknown". -/
def cFillRow (r : RawClient) : RawClient :=
  { r with name := fillCell r.name "Unknown",
           country := fillCell r.country "Unknown" }

/-- Step 2 on the table. -/
def cStep2 (l : List RawClient) : List RawClient := l.map cFillRow

/-- Step 3, first half: coerce `date_inscription`, drop NaT rows. -/
def cStep3a (l : List RawClient) : List RawClient :=
  l.filter fun r => dateIsValid r.date_inscription

/-- Step 3, second half: drop future dates (not counted in any stats field). -/
def cStep3b (today : Int) (l : List RawClient) : List RawClient :=
  l.filter fun r => dateLeToday today r.date_inscription

/-- Normalization `.str.strip().str.lower()` of the email column: non-strings become NaN. -/
def normEmailCell : RawCell → RawCell
  | .strv s => .strv (strLower (strTrim s))
  | _ => .null

/-- The filter `str.match(email_pattern, na=False)` on a normalized email cell. -/
def emailMatches : RawCell → Bool
  | .strv s => validEmail s
  | _ => false

/-- The email normalization of step 4 on one row. -/
def cNormRow (r : RawClient) : RawClient :=
  { r with email := normEmailCell r.email }

/-- Step 4: normalize emails, keep only rows matching the pattern. -/
def cStep4 (l : List RawClient) : List RawClient :=
  (l.map cNormRow).filter fun r => emailMatches r.email

/-- The email string of a cell that passed `cStep4` (always a string there). -/
def emailText : RawCell → String
  | .strv s => s
  | _ => ""

/-- Step 5 on one row: `client_id.astype(int)` (the only fallible coercion),
`name`/`country` `astype(str).str.strip()`. -/
def coerceClient (r : RawClient) : Except String CleanClient := do
  let cid ← coerceIntCell r.client_id
  .ok { client_id := cid,
        name := strTrim (cellToString r.name),
        email := emailText r.email,
        country := strTrim (cellToString r.country),
        date_inscription := dateDay r.date_inscription }

/-- Step 5 on the table. -/
def cStep5 (l : List RawClient) : Except String (List CleanClient) :=
  mapExcept coerceClient l

/-- Step 6: deduplicate first by `client_id`, then by `email`, keeping first
occurrences. -/
def cStep6 (l : List CleanClient) : List CleanClient :=
  dedupByKey (fun c => c.email) (dedupByKey (fun c => c.client_id) l)

/-- Step 7: sort by `client_id` ascending. -/
def cStep7 (l : List CleanClient) : List CleanClient :=
  insSortBy (fun a b => decide (a.client_id ≤ b.client_id)) l

/-- The task `clean_clients_data`: full pipeline plus stats.  The final
`data_loss_percentage` divides by the initial row count, so an empty input
raises `ZeroDivisionError`. -/
def cleanClientsData (today : Int) (df : List RawClient) :
    Except String (List CleanClient × CStats) := do
  let t1 := cStep1 df
  let t2 := cStep2 t1
  let t3a := cStep3a t2
  let t3b := cStep3b today t3a
  let t4 := cStep4 t3b
  let t5 ← cStep5 t4
  let t6 := cStep6 t5
  let t7 := cStep7 t6
  if df.length = 0 then .error "ZeroDivisionError" else
  .ok (t7,
    { initial_rows := df.length,
      removed_null_critical := (df.length : Int) - t1.length,
      removed_duplicates := (t5.length : Int) - t6.length,
      removed_invalid_dates := (t2.length : Int) - t3a.length,
      removed_invalid_emails := (t3b.length : Int) - t4.length,
      final_rows := t7.length,
      data_loss_percentage :=
        ((df.length : ℚ) - (t7.length : ℚ)) / (df.length : ℚ) * 100 })

/-- Number of client rows dropped by the future-date guard alone (removed but
not counted in any `removed_*` stats field). -/
def cFutureDropped (today : Int) (df : List RawClient) : Int :=
  ((cStep3a (cStep2 (cStep1 df))).length : Int) -
    ((cStep3b today (cStep3a (cStep2 (cStep1 df)))).length : Int)

/-! ### Silver cleaning: purchases (`clean_purchases_data`, pandas) -/

/-- A raw purchases row as loaded from bronze. -/
structure RawPurchase where
  purchase_id : RawCell
  client_id : RawCell
  amount : RawCell
  date_purchase : RawDate
  product : RawCell
deriving DecidableEq, Repr

/-- A cleaned purchases row. -/
structure Purchase where
  purchase_id : Int
  client_id : Int
  amount : ℚ
  date_purchase : Int
  product : String
deriving DecidableEq, Repr

/-- The cleaning-stats record of `clean_purchases_data`. -/
structure PStats where
  initial_rows : Int
  removed_null_critical : Int
  removed_duplicates : Int
  removed_invalid_dates : Int
  removed_invalid_amounts : Int
  removed_invalid_clients : Int
  removed_outliers : Int
  final_rows : Int
  data_loss_percentage : ℚ
deriving DecidableEq, Repr

/-- Step 1: `dropna` over `purchase_id`, `client_id`, `amount`,
`date_purchase`. -/
def pCritOk (r : RawPurchase) : Bool :=
  !r.purchase_id.isNull && !r.client_id.isNull && !r.amount.isNull &&
    !r.date_purchase.isNull

/-- Step 1 on the table. -/
def pStep1 (df : List RawPurchase) : List RawPurchase := df.filter pCritOk

/-- Step 2 on one row: `fillna` of `product` with "Unknown Product". -/
def pFillRow (r : RawPurchase) : RawPurchase :=
  { r with product := fillCell r.product "Unknown Product" }

/-- Step 2 on the table. -/
def pStep2 (l : List RawPurchase) : List RawPurchase := l.map pFillRow

/-- Step 3, first half: coerce `date_purchase`, drop NaT rows. -/
def pStep3a (l : List RawPurchase) : List RawPurchase :=
  l.filter fun r => dateIsValid r.date_purchase

/-- Step 3, second half: drop future dates (not counted in stats). -/
def pStep3b (today : Int) (l : List RawPurchase) : List RawPurchase :=
  l.filter fun r => dateLeToday today r.date_purchase

/-- Step 4 on one row: `purchase_id`/`client_id` `astype(int)`, `amount`
`astype(float)`, `product` `astype(str).str.strip()`.  The date column is
already datetime dtype here and is carried over. -/
def coercePurchase (r : RawPurchase) : Except String Purchase := do
  let pid ← coerceIntCell r.purchase_id
  let cid ← coerceIntCell r.client_id
  let amt ← coerceFloatCell r.amount
  .ok { purchase_id := pid, client_id := cid, amount := amt,
        date_purchase := dateDay r.date_purchase,
        product := strTrim (cellToString r.product) }

/-- Step 4 on the table. -/
def pStep4 (l : List RawPurchase) : Except String (List Purchase) :=
  mapExcept coercePurchase l

/-- Step 5: keep rows with `amount > 0`. -/
def pStep5 (l : List Purchase) : List Purchase :=
  l.filter fun p => decide (0 < p.amount)

/-- Step 6: keep rows whose `client_id` is in the valid-client-id set. -/
def pStep6 (ids : List Int) (l : List Purchase) : List Purchase :=
  l.filter fun p => decide (p.client_id ∈ ids)

/-- The `[Q1 - 3*IQR, Q3 + 3*IQR]` bound pair from a quantile pair (shared
formula of both engine variants). -/
def boundsFrom (q1 q3 : ℚ) : ℚ × ℚ :=
  (q1 - 3 * (q3 - q1), q3 + 3 * (q3 - q1))

/-- Step 7 bounds: `[Q1 - 3*IQR, Q3 + 3*IQR]` over an amount column, with the
pandas interpolating quantiles. -/
def pOutlierBounds (l : List ℚ) : ℚ × ℚ :=
  boundsFrom (panQuantile l (1/4)) (panQuantile l (3/4))

/-- Step 7: drop statistical outliers, with the bounds computed over the
amount column of the table *at this point of the pipeline*. -/
def pStep7 (l : List Purchase) : List Purchase :=
  let b := pOutlierBounds (l.map fun p => p.amount)
  l.filter fun p => decide (b.1 ≤ p.amount ∧ p.amount ≤ b.2)

/-- Step 8: deduplicate by `purchase_id`, keeping first occurrences. -/
def pStep8 (l : List Purchase) : List Purchase :=
  dedupByKey (fun p => p.purchase_id) l

/-- Step 9: sort by `purchase_id` ascending. -/
def pStep9 (l : List Purchase) : List Purchase :=
  insSortBy (fun a b => decide (a.purchase_id ≤ b.purchase_id)) l

/-- The table after steps 1-6 (the state over which the outlier bounds of
step 7 are computed). -/
def pAfter6 (today : Int) (df : List RawPurchase) (ids : List Int) :
    Except String (List Purchase) :=
  match pStep4 (pStep3b today (pStep3a (pStep2 (pStep1 df)))) with
  | .error e => .error e
  | .ok t4 => .ok (pStep6 ids (pStep5 t4))

/-- The task `clean_purchases_data`: full pipeline plus stats.  As in the clients
variant, the final `data_loss_percentage` raises on an empty input. -/
def cleanPurchasesData (today : Int) (df : List RawPurchase) (ids : List Int) :
    Except String (List Purchase × PStats) := do
  let t1 := pStep1 df
  let t2 := pStep2 t1
  let t3a := pStep3a t2
  let t3b := pStep3b today t3a
  let t4 ← pStep4 t3b
  let t5 := pStep5 t4
  let t6 := pStep6 ids t5
  let t7 := pStep7 t6
  let t8 := pStep8 t7
  let t9 := pStep9 t8
  if df.length = 0 then .error "ZeroDivisionError" else
  .ok (t9,
    { initial_rows := df.length,
      removed_null_critical := (df.length : Int) - t1.length,
      removed_duplicates := (t7.length : Int) - t8.length,
      removed_invalid_dates := (t2.length : Int) - t3a.length,
      removed_invalid_amounts := (t4.length : Int) - t5.length,
      removed_invalid_clients := (t5.length : Int) - t6.length,
      removed_outliers := (t6.length : Int) - t7.length,
      final_rows := t9.length,
      data_loss_percentage :=
        ((df.length : ℚ) - (t9.length : ℚ)) / (df.length : ℚ) * 100 })

/-! ### Gold stage (`gold_ingestion.py`)

Dates are day numbers; the calendar conversion below (days since 1970-01-01
to a civil year/month/day) implements the standard Gregorian algorithm and
backs the derived temporal key columns of the fact table. -/

/-- Civil (year, month, day) of a day number (days since 1970-01-01). -/
def civilFromDays (z0 : Int) : Int × Int × Int :=
  let z := z0 + 719468
  let era := (if 0 ≤ z then z else z - 146096) / 146097
  let doe := z - era * 146097
  let yoe := (doe - doe / 1460 + doe / 36524 - doe / 146096) / 365
  let y := yoe + era * 400
  let doy := doe - (365 * yoe + yoe / 4 - yoe / 100)
  let mp := (5 * doy + 2) / 153
  let d := doy - (153 * mp + 2) / 5 + 1
  let m := mp + (if mp < 10 then 3 else -9)
  (y + (if m ≤ 2 then 1 else 0), m, d)

/-- Day number (days since 1970-01-01) of a civil date; used to write the
concrete dates of the example scenarios. -/
def daysFromCivil (y0 m d : Int) : Int :=
  let y := y0 - (if m ≤ 2 then 1 else 0)
  let era := (if 0 ≤ y then y else y - 399) / 400
  let yoe := y - era * 400
  let mp := m + (if 2 < m then -3 else 9)
  let doy := (153 * mp + 2) / 5 + d - 1
  let doe := yoe * 365 + yoe / 4 - yoe / 100 + doy
  era * 146097 + doe - 719468

/-- Zero-padded two-digit rendering of a month number. -/
def pad2 (n : Int) : String :=
  if n < 10 then "0" ++ toString n else toString n

/-- The label `dt.to_period("M").astype(str)`: the "YYYY-MM" label of a day. -/
def yearMonthStr (y m : Int) : String := toString y ++ "-" ++ pad2 m

/-- A fact-table row: one purchase left-joined with its client's attributes
(missing when the join found no client), plus derived temporal keys.
The purely presentational derived columns (`week`, `day_name`, `month_name`,
`year_week`) are not modelled; no claim mentions them. -/
structure FactRow where
  purchase_id : Int
  client_id : Int
  amount : ℚ
  date_purchase : Int
  product : String
  name : Option String
  country : Option String
  date_inscription : Option Int
  year : Int
  month : Int
  quarter : Int
  day_of_week : Int
  year_month : String
deriving DecidableEq, Repr

/-- Build one fact row from a purchase and its (optional) joined client. -/
def mkFactRow (p : Purchase) (c : Option CleanClient) : FactRow :=
  let ymd := civilFromDays p.date_purchase
  { purchase_id := p.purchase_id, client_id := p.client_id,
    amount := p.amount, date_purchase := p.date_purchase,
    product := p.product,
    name := c.map fun x => x.name,
    country := c.map fun x => x.country,
    date_inscription := c.map fun x => x.date_inscription,
    year := ymd.1, month := ymd.2.1, quarter := (ymd.2.1 + 2) / 3,
    day_of_week := (p.date_purchase + 3) % 7,
    year_month := yearMonthStr ymd.1 ymd.2.1 }

/-- The fact rows a single purchase contributes to the left join: one row per
matching client, or one row with null client attributes when no client
matches. -/
def joinClientRows (p : Purchase) (cs : List CleanClient) : List FactRow :=
  match cs.filter (fun c => c.client_id = p.client_id) with
  | [] => [mkFactRow p none]
  | ms => ms.map fun c => mkFactRow p (some c)

/-- The task `create_fact_purchases`: left-join purchases onto clients by
`client_id` and derive the temporal columns. -/
def create_fact_purchases : List Purchase → List CleanClient → List FactRow
  | [], _ => []
  | p :: ps, cs => joinClientRows p cs ++ create_fact_purchases ps cs

/-- Largest element of a list (None when empty; models `Series.max`). -/
def listMax [LinearOrder α] : List α → Option α
  | [] => none
  | x :: xs => some ((listMax xs).elim x (fun m => max x m))

/-- Smallest element of a list (None when empty; models `Series.min`). -/
def listMin [LinearOrder α] : List α → Option α
  | [] => none
  | x :: xs => some ((listMin xs).elim x (fun m => min x m))

/-- The `Series.mean` aggregation: NaN (here `none`) on an empty column. -/
def meanOpt (l : List ℚ) : Option ℚ :=
  if l.length = 0 then none else some (l.sum / (l.length : ℚ))

/-- The `Series.median` aggregation: the 0.5 linear-interpolation quantile, NaN on empty. -/
def medianOpt (l : List ℚ) : Option ℚ :=
  if l.length = 0 then none else some (panQuantile l (1 / 2))

/-- One row of the global-KPI table. -/
structure KpiEntry where
  metric : String
  value : Option ℚ
  type : String
deriving DecidableEq, Repr

/-- The task `aggregate_kpi_global`.  The "Average Transactions per Client" entry
divides the row count by the distinct-client count with Python scalar
division, so a fact table with no clients (in particular an empty one)
raises `ZeroDivisionError` while the KPI frame is being built. -/
def aggregate_kpi_global (ft : List FactRow) : Except String (List KpiEntry) :=
  let amounts := ft.map fun r => r.amount
  let nClients := nuniqueBy (fun r : FactRow => r.client_id) ft
  if nClients = 0 then .error "ZeroDivisionError" else
  .ok
    [ { metric := "Total Revenue (EUR)", value := some amounts.sum,
        type := "financial" },
      { metric := "Total Transactions",
        value := some ((nuniqueBy (fun r : FactRow => r.purchase_id) ft : ℚ)),
        type := "volume" },
      { metric := "Average Transaction Value (EUR)", value := meanOpt amounts,
        type := "financial" },
      { metric := "Median Transaction Value (EUR)", value := medianOpt amounts,
        type := "financial" },
      { metric := "Total Unique Clients", value := some ((nClients : ℚ)),
        type := "clients" },
      { metric := "Total Unique Products",
        value := some ((nuniqueBy (fun r : FactRow => r.product) ft : ℚ)),
        type := "products" },
      { metric := "Average Transactions per Client",
        value := some ((ft.length : ℚ) / (nClients : ℚ)),
        type := "behavior" } ]

/-- One row of the by-country aggregation. -/
structure CountryAgg where
  country : String
  total_revenue : ℚ
  avg_transaction_value : ℚ
  total_transactions : Int
  unique_clients : Int
  unique_products : Int
  revenue_share_pct : ℚ
deriving DecidableEq, Repr

/-- The task `aggregate_by_country`: group by `country` (pandas `groupby` silently
drops rows whose key is NaN and sorts the group keys), compute revenue
shares against the summed group revenues, sort by revenue descending.
When the summed revenue is zero pandas produces IEEE inf/NaN shares, which
exact rationals cannot represent (the division below then yields 0); every
claim about shares assumes strictly positive amounts, where the two
semantics agree. -/
def aggregate_by_country (ft : List FactRow) : List CountryAgg :=
  let rows := ft.filter fun r => r.country.isSome
  let key : FactRow → String := fun r => r.country.getD ""
  let keys := insSortBy strLe (dedupByKey id (rows.map key))
  let base : List CountryAgg := keys.map fun k =>
    let g := rows.filter fun r => key r = k
    let s := (g.map fun r => r.amount).sum
    { country := k, total_revenue := s,
      avg_transaction_value := s / (g.length : ℚ),
      total_transactions := (g.length : Int),
      unique_clients := nuniqueBy (fun r : FactRow => r.client_id) g,
      unique_products := nuniqueBy (fun r : FactRow => r.product) g,
      revenue_share_pct := 0 }
  let total := (base.map fun r => r.total_revenue).sum
  let shared := base.map fun r =>
    { r with revenue_share_pct := r.total_revenue / total * 100 }
  insSortBy (fun a b => decide (b.total_revenue ≤ a.total_revenue)) shared

/-- One row of the by-product aggregation. -/
structure ProductAgg where
  product : String
  total_revenue : ℚ
  avg_price : ℚ
  total_sales : Int
  unique_buyers : Int
  revenue_share_pct : ℚ
deriving DecidableEq, Repr

/-- The task `aggregate_by_product`: same shape as the country aggregation, keyed on
the (never-null) `product` column. -/
def aggregate_by_product (ft : List FactRow) : List ProductAgg :=
  let keys := insSortBy strLe (dedupByKey id (ft.map fun r => r.product))
  let base : List ProductAgg := keys.map fun k =>
    let g := ft.filter fun r => r.product = k
    let s := (g.map fun r => r.amount).sum
    { product := k, total_revenue := s,
      avg_price := s / (g.length : ℚ),
      total_sales := (g.length : Int),
      unique_buyers := nuniqueBy (fun r : FactRow => r.client_id) g,
      revenue_share_pct := 0 }
  let total := (base.map fun r => r.total_revenue).sum
  let shared := base.map fun r =>
    { r with revenue_share_pct := r.total_revenue / total * 100 }
  insSortBy (fun a b => decide (b.total_revenue ≤ a.total_revenue)) shared

/-- One row of the monthly aggregation. -/
structure MonthlyAgg where
  year_month : String
  monthly_revenue : ℚ
  avg_transaction_value : ℚ
  monthly_transactions : Int
  monthly_unique_clients : Int
  monthly_unique_products : Int
  revenue_mom_growth_pct : Option ℚ
  transactions_mom_growth_pct : Option ℚ
  clients_mom_growth_pct : Option ℚ
  cumulative_revenue : ℚ
deriving DecidableEq, Repr

/-- The grouped monthly rows before the growth/cumulative columns. -/
def monthlyBase (ft : List FactRow) : List MonthlyAgg :=
  let keys := insSortBy strLe (dedupByKey id (ft.map fun r => r.year_month))
  keys.map fun k =>
    let g := ft.filter fun r => r.year_month = k
    let s := (g.map fun r => r.amount).sum
    { year_month := k, monthly_revenue := s,
      avg_transaction_value := s / (g.length : ℚ),
      monthly_transactions := (g.length : Int),
      monthly_unique_clients := nuniqueBy (fun r : FactRow => r.client_id) g,
      monthly_unique_products := nuniqueBy (fun r : FactRow => r.product) g,
      revenue_mom_growth_pct := none,
      transactions_mom_growth_pct := none,
      clients_mom_growth_pct := none,
      cumulative_revenue := 0 }

/-- Growth (`pct_change() * 100`, None for the first row) and `cumsum`, threaded down
the hopefully-sorted monthly rows.  pandas yields IEEE inf when a previous
value is 0; that case is outside every claim and maps to the rational 0. -/
def addMonthlyDerived (prev : Option MonthlyAgg) (cum : ℚ) :
    List MonthlyAgg → List MonthlyAgg
  | [] => []
  | b :: rest =>
    let grow : (MonthlyAgg → ℚ) → Option ℚ := fun f =>
      prev.map fun p => (f b - f p) / f p * 100
    let cum2 := cum + b.monthly_revenue
    { b with
      revenue_mom_growth_pct := grow fun r => r.monthly_revenue,
      transactions_mom_growth_pct := grow fun r => (r.monthly_transactions : ℚ),
      clients_mom_growth_pct := grow fun r => (r.monthly_unique_clients : ℚ),
      cumulative_revenue := cum2 } :: addMonthlyDerived (some b) cum2 rest

/-- The task `aggregate_by_time_monthly`. -/
def aggregate_by_time_monthly (ft : List FactRow) : List MonthlyAgg :=
  addMonthlyDerived none 0 (monthlyBase ft)

/-- One row of the client-behavior (RFM) aggregation.  The
`std_purchase_value` column is not modelled: a sample standard deviation
needs a square root, which exact rationals cannot express, and no claim
mentions it. -/
structure ClientBehavior where
  client_id : Int
  total_purchases : Int
  total_spent : ℚ
  avg_purchase_value : ℚ
  min_purchase_value : ℚ
  max_purchase_value : ℚ
  first_purchase_date : Int
  last_purchase_date : Int
  unique_products_bought : Int
  country : Option String
  name : Option String
  recency_days : Int
  customer_lifetime_days : Int
  purchase_frequency : ℚ
  client_segment : String
deriving DecidableEq, Repr

/-- The RFM segmentation rule of `aggregate_client_behavior`, evaluated in
priority order with the first match winning. -/
def segment_client (recency_days total_purchases : Int) : String :=
  if recency_days ≤ 30 ∧ total_purchases ≥ 5 then "VIP"
  else if recency_days ≤ 90 ∧ total_purchases ≥ 3 then "Active"
  else if recency_days ≤ 180 then "At Risk"
  else "Inactive"

/-- The task `aggregate_client_behavior`: group by `client_id` (keys sorted), derive
recency against the fact table's maximum purchase date, lifetime, frequency
and the segment, then sort by total spend descending. -/
def aggregate_client_behavior (ft : List FactRow) : List ClientBehavior :=
  let today := (listMax (ft.map fun r => r.date_purchase)).getD 0
  let keys := insSortBy (fun a b => decide (a ≤ b))
    (dedupByKey id (ft.map fun r => r.client_id))
  let rows := keys.map fun k =>
    let g := ft.filter fun r => r.client_id = k
    let amts := g.map fun r => r.amount
    let dates := g.map fun r => r.date_purchase
    let firstD := (listMin dates).getD 0
    let lastD := (listMax dates).getD 0
    let n := (g.length : Int)
    let recency := today - lastD
    let lifetime := lastD - firstD
    { client_id := k, total_purchases := n, total_spent := amts.sum,
      avg_purchase_value := amts.sum / (g.length : ℚ),
      min_purchase_value := (listMin amts).getD 0,
      max_purchase_value := (listMax amts).getD 0,
      first_purchase_date := firstD, last_purchase_date := lastD,
      unique_products_bought := nuniqueBy (fun r : FactRow => r.product) g,
      country := (g.filterMap fun r => r.country).head?,
      name := (g.filterMap fun r => r.name).head?,
      recency_days := recency, customer_lifetime_days := lifetime,
      purchase_frequency := (n : ℚ) / ((lifetime : ℚ) + 1),
      client_segment := segment_client recency n }
  insSortBy (fun a b => decide (b.total_spent ≤ a.total_spent)) rows

/-! ### Silver cleaning: purchases, Spark variant
(`silver_ingestion_spark.py`, `clean_purchases_data`)

Steps 1-3 are line-for-line the same filters as the pandas variant and reuse
the step functions above.  The differences faithful to the Spark engine:
`cast` returns null instead of raising on a malformed value (so the typed row
carries `Option` fields), the outlier quantiles come from `approxQuantile`
— which returns *elements* of the column, without interpolation — guarded by
`len(quantiles) == 2`, and the `data_loss_percentage` division is guarded by
`if initial_count > 0`, so this variant never raises.  `approxQuantile`'s
result is passed in as a pair of parameters; its engine-side contract (each
returned value is a member of the column) is stated as `approxQuantileMem`
below. -/

/-- A purchases row after Spark's `cast` step (nulls survive casting). -/
structure SPurchase where
  purchase_id : Option Int
  client_id : Option Int
  amount : Option ℚ
  date_purchase : Int
  product : String
deriving DecidableEq, Repr

/-- Spark `cast(IntegerType)`: null on a malformed string, truncation on a
double, null stays null. -/
def castIntCell : RawCell → Option Int
  | .null => none
  | .num q => some (truncRat q)
  | .strv s => parseIntStr s

/-- Spark `cast(DoubleType)`. -/
def castFloatCell : RawCell → Option ℚ
  | .null => none
  | .num q => some q
  | .strv s => parseFloatStr s

/-- Spark step 4 on one row. -/
def castPurchase (r : RawPurchase) : SPurchase :=
  { purchase_id := castIntCell r.purchase_id,
    client_id := castIntCell r.client_id,
    amount := castFloatCell r.amount,
    date_purchase := dateDay r.date_purchase,
    product := strTrim (cellToString r.product) }

/-- Spark step 4 on the table. -/
def sStep4 (l : List RawPurchase) : List SPurchase := l.map castPurchase

/-- Spark step 5: `filter(amount > 0)`; a null comparison is not TRUE, so
null amounts are dropped. -/
def sStep5 (l : List SPurchase) : List SPurchase :=
  l.filter fun r => match r.amount with
    | some a => decide (0 < a)
    | none => false

/-- Spark step 6: `filter(client_id.isin(valid_client_ids))`. -/
def sStep6 (ids : List Int) (l : List SPurchase) : List SPurchase :=
  l.filter fun r => match r.client_id with
    | some c => decide (c ∈ ids)
    | none => false

/-- Spark step 7: outlier filter from an `approxQuantile` result pair,
skipped when `approxQuantile` returned fewer than two values (which happens
exactly when the column has no non-null entries, i.e. the table at this
point is empty). -/
def sStep7 (q1 q3 : ℚ) (l : List SPurchase) : List SPurchase :=
  if l.isEmpty then l
  else
    let b := boundsFrom q1 q3
    l.filter fun r => match r.amount with
      | some a => decide (b.1 ≤ a ∧ a ≤ b.2)
      | none => false

/-- Spark step 8: `dropDuplicates(["purchase_id"])` (kept occurrence
modelled as the first, as in the pandas variant). -/
def sStep8 (l : List SPurchase) : List SPurchase :=
  dedupByKey (fun p => p.purchase_id) l

/-- Boolean order on nullable ints (Spark sorts nulls first ascending). -/
def optIntLe (a b : Option Int) : Bool :=
  match a, b with
  | none, _ => true
  | some _, none => false
  | some x, some y => decide (x ≤ y)

/-- Spark step 9: `orderBy("purchase_id")`. -/
def sStep9 (l : List SPurchase) : List SPurchase :=
  insSortBy (fun a b => optIntLe a.purchase_id b.purchase_id) l

/-- The amount column fed to `approxQuantile` (its non-null values). -/
def sAmountCol (today : Int) (df : List RawPurchase) (ids : List Int) :
    List ℚ :=
  (sStep6 ids (sStep5 (sStep4 (pStep3b today (pStep3a (pStep2 (pStep1 df))))))).filterMap
    fun r => r.amount

/-- The contract of `approxQuantile`: each returned quantile is an element of
the column (Greenwald-Khanna summaries store actual samples). -/
def approxQuantileMem (col : List ℚ) (q1 q3 : ℚ) : Prop :=
  q1 ∈ col ∧ q3 ∈ col

/-- Spark `clean_purchases_data`, given the `approxQuantile` outcome
`(q1, q3)`.  Total: the Spark variant never raises. -/
def sparkCleanPurchasesData (today : Int) (df : List RawPurchase)
    (ids : List Int) (q1 q3 : ℚ) : List SPurchase × PStats :=
  let t1 := pStep1 df
  let t2 := pStep2 t1
  let t3a := pStep3a t2
  let t3b := pStep3b today t3a
  let t4 := sStep4 t3b
  let t5 := sStep5 t4
  let t6 := sStep6 ids t5
  let t7 := sStep7 q1 q3 t6
  let t8 := sStep8 t7
  let t9 := sStep9 t8
  (t9,
    { initial_rows := df.length,
      removed_null_critical := (df.length : Int) - t1.length,
      removed_duplicates := (t7.length : Int) - t8.length,
      removed_invalid_dates := (t2.length : Int) - t3a.length,
      removed_invalid_amounts := (t4.length : Int) - t5.length,
      removed_invalid_clients := (t5.length : Int) - t6.length,
      removed_outliers := (t6.length : Int) - t7.length,
      final_rows := t9.length,
      data_loss_percentage :=
        if 0 < df.length then
          ((df.length : ℚ) - (t9.length : ℚ)) / (df.length : ℚ) * 100
        else 0 })

/-! ### Extractors and embeddings used to state the claims -/

/-- The cleaned table of a purchases-cleaning outcome (empty on error). -/
def okTable : Except String (List Purchase × PStats) → List Purchase
  | .ok (t, _) => t
  | .error _ => []

/-- The stats record of a purchases-cleaning outcome (zeros on error). -/
def okStats : Except String (List Purchase × PStats) → PStats
  | .ok (_, s) => s
  | .error _ => ⟨0, 0, 0, 0, 0, 0, 0, 0, 0⟩

/-- The table of a fallible intermediate state (empty on error). -/
def okList : Except String (List Purchase) → List Purchase
  | .ok t => t
  | .error _ => []

/-- A pandas-typed purchase row seen as a Spark row (all fields present). -/
def purchaseToS (p : Purchase) : SPurchase :=
  { purchase_id := some p.purchase_id, client_id := some p.client_id,
    amount := some p.amount, date_purchase := p.date_purchase,
    product := p.product }

/-- The Boolean rendering of the spec's outlier invariant: every row of a
cleaned table lies within the bounds recomputed from that same table. -/
def outlierClaimHolds (tbl : List Purchase) : Bool :=
  let b := pOutlierBounds (tbl.map fun p => p.amount)
  tbl.all fun p => decide (b.1 ≤ p.amount ∧ p.amount ≤ b.2)

/-! ### Concrete tables for the example scenarios and witnesses -/

/-- Concrete purchases table exercising the referential-integrity filter:
`purchase_id = 2` references the unknown client 7 and is dropped. -/
def c3df : List RawPurchase :=
  [{ purchase_id := .num 1, client_id := .num 1, amount := .num 10,
     date_purchase := .valid 5, product := .strv "a" },
   { purchase_id := .num 2, client_id := .num 7, amount := .num 20,
     date_purchase := .valid 5, product := .strv "b" }]

/-- The cleaned table of `c3df`. -/
def c3tbl : List Purchase :=
  [{ purchase_id := 1, client_id := 1, amount := 10, date_purchase := 5,
     product := "a" }]

/-- The cleaning stats of `c3df`. -/
def c3st : PStats :=
  { initial_rows := 2, removed_null_critical := 0, removed_duplicates := 0,
    removed_invalid_dates := 0, removed_invalid_amounts := 0,
    removed_invalid_clients := 1, removed_outliers := 0, final_rows := 1,
    data_loss_percentage := 50 }


/-- A fact row for the concrete gold-stage scenarios: one purchase joined
with a client of the same id. -/
def exFactRow (pid cid : Int) (amt : ℚ) (day : Int) : FactRow :=
  mkFactRow
    { purchase_id := pid, client_id := cid, amount := amt,
      date_purchase := day, product := "p" }
    (some { client_id := cid, name := "n", email := "e@x.com",
            country := "FR", date_inscription := 0 })

/-- Fact table with monthly revenues [100, 150] (January/February 2024). -/
def c8ft : List FactRow :=
  [exFactRow 1 1 100 (daysFromCivil 2024 1 15),
   exFactRow 2 1 150 (daysFromCivil 2024 2 15)]


/-- Fact table of the C2 scenario. -/
def c2ft : List FactRow :=
  [exFactRow 1 1 10 (daysFromCivil 2024 1 1),
   exFactRow 2 1 10 (daysFromCivil 2024 1 2),
   exFactRow 3 1 10 (daysFromCivil 2024 1 3),
   exFactRow 4 1 10 (daysFromCivil 2024 1 5),
   exFactRow 5 1 10 (daysFromCivil 2024 1 7),
   exFactRow 6 1 10 (daysFromCivil 2024 1 10),
   exFactRow 7 2 5 (daysFromCivil 2024 1 20)]


/-- Purchases for the C9 witness. -/
def c9ps : List Purchase :=
  [{ purchase_id := 1, client_id := 1, amount := 10, date_purchase := 5,
     product := "a" },
   { purchase_id := 2, client_id := 1, amount := 20, date_purchase := 6,
     product := "b" }]

/-- Clients for the C9 witness (unique ids). -/
def c9cs : List CleanClient :=
  [{ client_id := 1, name := "n", email := "e@x.com", country := "FR",
     date_inscription := 0 }]


/-- Raw clients table for the C10 witness: one valid row, one future-dated
row (dropped but uncounted), one invalid-email row (dropped and counted). -/
def c10df : List RawClient :=
  [{ client_id := .num 1, name := .strv "alice", email := .strv "A@x.com",
     country := .strv "FR", date_inscription := .valid 5 },
   { client_id := .num 2, name := .null, email := .strv "b@x.com",
     country := .null, date_inscription := .valid 20 },
   { client_id := .num 3, name := .strv "c", email := .strv "bad",
     country := .strv "DE", date_inscription := .valid 5 }]

/-- The cleaned table of `c10df` with `today = 10`. -/
def c10tbl : List CleanClient :=
  [{ client_id := 1, name := "alice", email := "a@x.com", country := "FR",
     date_inscription := 5 }]

/-- The cleaning stats of `c10df` with `today = 10`. -/
def c10st : CStats :=
  { initial_rows := 3, removed_null_critical := 0, removed_duplicates := 0,
    removed_invalid_dates := 0, removed_invalid_emails := 1, final_rows := 1,
    data_loss_percentage := 200 / 3 }

/-- Raw purchases table refuting C1: after steps 1-6 the amounts are
[1, 1, 1, 1, 5.7, 100]; the bounds computed there are [-6.05, 15.1], so 100
is dropped and 5.7 kept — but over the *returned* table [1, 1, 1, 1, 5.7]
the quantiles give Q1 = Q3 = 1, IQR = 0, bounds [1, 1], violated by 5.7. -/
def c1df : List RawPurchase :=
  [{ purchase_id := .num 1, client_id := .num 1, amount := .num 1,
     date_purchase := .valid 10, product := .strv "p" },
   { purchase_id := .num 2, client_id := .num 1, amount := .num 1,
     date_purchase := .valid 10, product := .strv "p" },
   { purchase_id := .num 3, client_id := .num 1, amount := .num 1,
     date_purchase := .valid 10, product := .strv "p" },
   { purchase_id := .num 4, client_id := .num 1, amount := .num 1,
     date_purchase := .valid 10, product := .strv "p" },
   { purchase_id := .num 5, client_id := .num 1, amount := .num (57/10),
     date_purchase := .valid 10, product := .strv "p" },
   { purchase_id := .num 6, client_id := .num 1, amount := .num 100,
     date_purchase := .valid 10, product := .strv "p" }]

/-- A typed purchase row of `c1df` (used to instantiate C1's amended bound
statement at a concrete row). -/
def c1row : Purchase :=
  { purchase_id := 1, client_id := 1, amount := 1, date_purchase := 10,
    product := "p" }

/-- The table of `c1df` after steps 1-6 (all six rows survive). -/
def c1t6 : List Purchase :=
  [{ purchase_id := 1, client_id := 1, amount := 1, date_purchase := 10,
     product := "p" },
   { purchase_id := 2, client_id := 1, amount := 1, date_purchase := 10,
     product := "p" },
   { purchase_id := 3, client_id := 1, amount := 1, date_purchase := 10,
     product := "p" },
   { purchase_id := 4, client_id := 1, amount := 1, date_purchase := 10,
     product := "p" },
   { purchase_id := 5, client_id := 1, amount := 57/10, date_purchase := 10,
     product := "p" },
   { purchase_id := 6, client_id := 1, amount := 100, date_purchase := 10,
     product := "p" }]

/-- The cleaned table of `c1df` (the outlier 100 dropped). -/
def c1tbl : List Purchase := c1t6.take 5

/-- The cleaning stats of `c1df`. -/
def c1st : PStats :=
  { initial_rows := 6, removed_null_critical := 0, removed_duplicates := 0,
    removed_invalid_dates := 0, removed_invalid_amounts := 0,
    removed_invalid_clients := 0, removed_outliers := 1, final_rows := 5,
    data_loss_percentage := 50 / 3 }

/-- A purchases row whose `amount` is the non-numeric string "abc":
`astype(float)` raises on it, refuting "row-content errors never raise". -/
def c4badDf : List RawPurchase :=
  [{ purchase_id := .num 1, client_id := .num 1, amount := .strv "abc",
     date_purchase := .valid 5, product := .strv "p" }]

/-- Raw purchases refuting the engine-equivalence of outlier bounds: the
cleaned amounts are [1, 2, 4, 8], whose pandas interpolated quantiles are
Q1 = 1.75 and Q3 = 5 (bounds [-8, 14.75]); no pair of *elements* of the
column can reproduce that bound pair. -/
def c6df : List RawPurchase :=
  [{ purchase_id := .num 1, client_id := .num 1, amount := .num 1,
     date_purchase := .valid 5, product := .strv "p" },
   { purchase_id := .num 2, client_id := .num 1, amount := .num 2,
     date_purchase := .valid 5, product := .strv "p" },
   { purchase_id := .num 3, client_id := .num 1, amount := .num 4,
     date_purchase := .valid 5, product := .strv "p" },
   { purchase_id := .num 4, client_id := .num 1, amount := .num 8,
     date_purchase := .valid 5, product := .strv "p" }]

/-- One-row purchases table on which both engines' quantiles coincide. -/
def c6wDf : List RawPurchase :=
  [{ purchase_id := .num 1, client_id := .num 1, amount := .num 10,
     date_purchase := .valid 5, product := .strv "p" }]

/-- The steps-1-6 table of `c6wDf`. -/
def c6w6 : List Purchase :=
  [{ purchase_id := 1, client_id := 1, amount := 10, date_purchase := 5,
     product := "p" }]

/-! ### Lemmas about the list helpers -/

theorem insSorted_perm (le : α → α → Bool) (x : α) (l : List α) :
    (insSorted le x l).Perm (x :: l) := by
  induction l with
  | nil => simp [insSorted]
  | cons y ys ih =>
    simp only [insSorted]
    cases h : le x y with
    | true => simp
    | false =>
      simp only [Bool.false_eq_true, if_false]
      exact (ih.cons y).trans (List.Perm.swap x y ys)

theorem insSortBy_perm (le : α → α → Bool) (l : List α) :
    (insSortBy le l).Perm l := by
  induction l with
  | nil => simp [insSortBy]
  | cons x xs ih =>
    exact (insSorted_perm le x (insSortBy le xs)).trans (ih.cons x)

theorem mem_insSortBy {le : α → α → Bool} {l : List α} {a : α} :
    a ∈ insSortBy le l ↔ a ∈ l :=
  (insSortBy_perm le l).mem_iff

theorem length_insSortBy (le : α → α → Bool) (l : List α) :
    (insSortBy le l).length = l.length :=
  (insSortBy_perm le l).length_eq

theorem mem_of_mem_dedupByKeyAux [DecidableEq β] {key : α → β} :
    ∀ {seen : List β} {l : List α} {a : α},
      a ∈ dedupByKeyAux key seen l → a ∈ l := by
  intro seen l
  induction l generalizing seen with
  | nil => intro a h; simp [dedupByKeyAux] at h
  | cons x xs ih =>
    intro a h
    simp only [dedupByKeyAux] at h
    by_cases hx : key x ∈ seen
    · simp only [if_pos hx] at h
      exact List.mem_cons_of_mem x (ih h)
    · simp only [if_neg hx, List.mem_cons] at h
      rcases h with h | h
      · exact h ▸ List.mem_cons_self x xs
      · exact List.mem_cons_of_mem x (ih h)

theorem mem_of_mem_dedupByKey [DecidableEq β] {key : α → β} {l : List α}
    {a : α} (h : a ∈ dedupByKey key l) : a ∈ l :=
  mem_of_mem_dedupByKeyAux h

theorem length_dedupByKeyAux_le [DecidableEq β] (key : α → β) :
    ∀ (seen : List β) (l : List α),
      (dedupByKeyAux key seen l).length ≤ l.length := by
  intro seen l
  induction l generalizing seen with
  | nil => simp [dedupByKeyAux]
  | cons x xs ih =>
    simp only [dedupByKeyAux]
    by_cases hx : key x ∈ seen
    · simp only [if_pos hx, List.length_cons]
      exact Nat.le_succ_of_le (ih seen)
    · simp only [if_neg hx, List.length_cons]
      exact Nat.succ_le_succ (ih (key x :: seen))

theorem length_dedupByKey_le [DecidableEq β] (key : α → β) (l : List α) :
    (dedupByKey key l).length ≤ l.length :=
  length_dedupByKeyAux_le key [] l

theorem mem_dedupByKeyAux_id [DecidableEq β] :
    ∀ (seen l : List β) (b : β),
      b ∈ dedupByKeyAux id seen l ↔ b ∈ l ∧ b ∉ seen := by
  intro seen l
  induction l generalizing seen with
  | nil => intro b; simp [dedupByKeyAux]
  | cons x xs ih =>
    intro b
    show b ∈ (if x ∈ seen then dedupByKeyAux id seen xs
      else x :: dedupByKeyAux id (x :: seen) xs) ↔ _
    by_cases hx : x ∈ seen
    · rw [if_pos hx, ih]
      constructor
      · exact fun h => ⟨List.mem_cons_of_mem x h.1, h.2⟩
      · rintro ⟨hb, hs⟩
        rcases List.mem_cons.mp hb with rfl | hb
        · exact absurd hx hs
        · exact ⟨hb, hs⟩
    · rw [if_neg hx]
      constructor
      · intro h
        rcases List.mem_cons.mp h with rfl | h
        · exact ⟨List.mem_cons_self b xs, hx⟩
        · rcases (ih (x :: seen) b).mp h with ⟨hb, hs⟩
          exact ⟨List.mem_cons_of_mem x hb,
            fun hbs => hs (List.mem_cons_of_mem x hbs)⟩
      · rintro ⟨hb, hs⟩
        rcases List.mem_cons.mp hb with rfl | hb
        · exact List.mem_cons_self b _
        · by_cases hbx : b = x
          · exact hbx ▸ List.mem_cons_self x _
          · refine List.mem_cons_of_mem x ((ih (x :: seen) b).mpr ⟨hb, ?_⟩)
            intro hbs
            rcases List.mem_cons.mp hbs with h | h
            · exact hbx h
            · exact hs h

theorem mem_dedupByKey_id [DecidableEq β] (l : List β) (b : β) :
    b ∈ dedupByKey id l ↔ b ∈ l := by
  rw [dedupByKey, mem_dedupByKeyAux_id]
  simp

theorem nodup_dedupByKeyAux_id [DecidableEq β] :
    ∀ (seen l : List β), (dedupByKeyAux id seen l).Nodup := by
  intro seen l
  induction l generalizing seen with
  | nil => simp [dedupByKeyAux]
  | cons x xs ih =>
    show (if x ∈ seen then dedupByKeyAux id seen xs
      else x :: dedupByKeyAux id (x :: seen) xs).Nodup
    by_cases hx : x ∈ seen
    · rw [if_pos hx]; exact ih seen
    · rw [if_neg hx, List.nodup_cons]
      refine ⟨fun hmem => ?_, ih (x :: seen)⟩
      exact ((mem_dedupByKeyAux_id (x :: seen) xs x).mp hmem).2
        (List.mem_cons_self x seen)

theorem nodup_dedupByKey_id [DecidableEq β] (l : List β) :
    (dedupByKey id l).Nodup :=
  nodup_dedupByKeyAux_id [] l

theorem except_bind_ok (a : α) (f : α → Except String β) :
    (Except.ok a >>= f : Except String β) = f a := rfl

theorem except_bind_error (e : String) (f : α → Except String β) :
    (Except.error e >>= f : Except String β) = Except.error e := rfl

theorem except_isOk_ok (a : α) : (Except.ok a : Except String α).isOk = true :=
  rfl

theorem except_isOk_error (e : String) :
    (Except.error e : Except String α).isOk = false := rfl

theorem mapExcept_cons (f : α → Except String β) (x : α) (xs : List α) :
    mapExcept f (x :: xs) = (f x >>= fun y =>
      mapExcept f xs >>= fun ys => Except.ok (y :: ys)) := rfl

theorem mapExcept_ok_length {f : α → Except String β} :
    ∀ {l : List α} {t : List β}, mapExcept f l = .ok t →
      t.length = l.length := by
  intro l
  induction l with
  | nil =>
    intro t h
    have : ([] : List β) = t := by
      simpa [mapExcept] using h
    simp [← this]
  | cons x xs ih =>
    intro t h
    rw [mapExcept_cons] at h
    cases hx : f x with
    | error e => rw [hx, except_bind_error] at h; exact absurd h (by simp)
    | ok y =>
      rw [hx, except_bind_ok] at h
      cases hxs : mapExcept f xs with
      | error e => rw [hxs, except_bind_error] at h; exact absurd h (by simp)
      | ok ys =>
        rw [hxs, except_bind_ok] at h
        have : y :: ys = t := by simpa using h
        simp [← this, ih hxs]

theorem mapExcept_isOk {f : α → Except String β} :
    ∀ {l : List α}, (∀ a ∈ l, (f a).isOk = true) →
      (mapExcept f l).isOk = true := by
  intro l
  induction l with
  | nil => intro _; exact except_isOk_ok []
  | cons x xs ih =>
    intro h
    rw [mapExcept_cons]
    cases hx : f x with
    | error e =>
      have := h x (List.mem_cons_self x xs)
      rw [hx, except_isOk_error] at this
      exact absurd this (by simp)
    | ok y =>
      rw [except_bind_ok]
      cases hxs : mapExcept f xs with
      | error e =>
        have := ih fun a ha => h a (List.mem_cons_of_mem x ha)
        rw [hxs, except_isOk_error] at this
        exact absurd this (by simp)
      | ok ys => rw [except_bind_ok]; exact except_isOk_ok _

theorem sum_filter_split (p : α → Bool) (f : α → ℚ) (l : List α) :
    ((l.filter p).map f).sum + ((l.filter fun a => !p a).map f).sum
      = (l.map f).sum := by
  induction l with
  | nil => simp
  | cons x xs ih =>
    cases h : p x with
    | true => simp [List.filter_cons, h, ← ih]; ring
    | false => simp [List.filter_cons, h, ← ih]; ring

theorem sum_groups [DecidableEq K] (key : α → K) (f : α → ℚ) :
    ∀ (ks : List K) (l : List α), ks.Nodup → (∀ a ∈ l, key a ∈ ks) →
      ((ks.map fun k =>
        ((l.filter fun a => key a = k).map f).sum).sum = (l.map f).sum) := by
  intro ks
  induction ks with
  | nil =>
    intro l _ hcov
    cases l with
    | nil => simp
    | cons a l => exact absurd (hcov a (List.mem_cons_self a l)) (by simp)
  | cons k ks ih =>
    intro l hnd hcov
    have hk : k ∉ ks := (List.nodup_cons.mp hnd).1
    have hnd' : ks.Nodup := (List.nodup_cons.mp hnd).2
    have hsplit := sum_filter_split (fun a => decide (key a = k)) f l
    have hcov' : ∀ a ∈ l.filter fun a => !decide (key a = k), key a ∈ ks := by
      intro a ha
      have hmem := List.mem_filter.mp ha
      have hne : key a ≠ k := by simpa using hmem.2
      rcases List.mem_cons.mp (hcov a hmem.1) with h | h
      · exact absurd h hne
      · exact h
    have hmap : (ks.map fun j => ((l.filter fun a => key a = j).map f).sum)
        = ks.map fun j =>
          (((l.filter fun a => !decide (key a = k)).filter
            fun a => key a = j).map f).sum := by
      apply List.map_congr_left
      intro j hj
      have hjk : j ≠ k := fun h => hk (h ▸ hj)
      have heq : ((l.filter fun a => !decide (key a = k)).filter
            fun a => key a = j) = l.filter fun a => key a = j := by
        rw [List.filter_filter]
        apply List.filter_congr
        intro a _
        by_cases ha : key a = j
        · simp [ha, hjk]
        · simp [ha]
      rw [heq]
    calc ((k :: ks).map fun j =>
          ((l.filter fun a => key a = j).map f).sum).sum
        = ((l.filter fun a => key a = k).map f).sum
          + (ks.map fun j => ((l.filter fun a => key a = j).map f).sum).sum := by
          simp
      _ = ((l.filter fun a => decide (key a = k)).map f).sum
          + ((l.filter fun a => !decide (key a = k)).map f).sum := by
          rw [hmap, ih _ hnd' hcov']
      _ = (l.map f).sum := hsplit

theorem sum_map_div_mul (g : α → ℚ) (T : ℚ) (l : List α) :
    (l.map fun a => g a / T * 100).sum = (l.map g).sum / T * 100 := by
  induction l with
  | nil => simp
  | cons x xs ih => simp [ih]; ring

theorem filter_map_comm (f : α → β) (p : β → Bool) (l : List α) :
    (l.map f).filter p = (l.filter fun a => p (f a)).map f := by
  induction l with
  | nil => simp
  | cons x xs ih =>
    cases h : p (f x) with
    | true => simp [List.filter_cons, h, ih]
    | false => simp [List.filter_cons, h, ih]

/-! ### Structure of successful cleaning runs -/

theorem cleanPurchasesData_ok_parts {today : Int} {df : List RawPurchase}
    {ids : List Int} {tbl : List Purchase} {st : PStats}
    (h : cleanPurchasesData today df ids = .ok (tbl, st)) :
    ∃ t4, pStep4 (pStep3b today (pStep3a (pStep2 (pStep1 df)))) = .ok t4 ∧
      tbl = pStep9 (pStep8 (pStep7 (pStep6 ids (pStep5 t4)))) ∧
      df.length ≠ 0 := by
  cases h4 : pStep4 (pStep3b today (pStep3a (pStep2 (pStep1 df)))) with
  | error e =>
    simp only [cleanPurchasesData, h4, except_bind_error] at h
    exact absurd h (by simp)
  | ok t4 =>
    simp only [cleanPurchasesData, h4, except_bind_ok] at h
    by_cases h0 : df.length = 0
    · rw [if_pos h0] at h
      exact absurd h (by simp)
    · rw [if_neg h0] at h
      simp only [Except.ok.injEq, Prod.mk.injEq] at h
      exact ⟨t4, rfl, h.1.symm, h0⟩

theorem pAfter6_ok_of_parts {today : Int} {df : List RawPurchase}
    {ids : List Int} {t4 : List Purchase}
    (h4 : pStep4 (pStep3b today (pStep3a (pStep2 (pStep1 df)))) = .ok t4) :
    pAfter6 today df ids = .ok (pStep6 ids (pStep5 t4)) := by
  simp only [pAfter6, h4]

/-- C3: every row of the cleaned purchases table carries a `client_id` that
is a member of the valid-client-id set passed in (referential integrity:
orphan purchases are dropped in step 6 and never reintroduced). -/
theorem C3_referential_integrity (today : Int) (df : List RawPurchase)
    (ids : List Int) (tbl : List Purchase) (st : PStats)
    (h : cleanPurchasesData today df ids = .ok (tbl, st)) :
    ∀ r ∈ tbl, r.client_id ∈ ids := by
  obtain ⟨t4, h4, htbl, h0⟩ := cleanPurchasesData_ok_parts h
  intro r hr
  rw [htbl] at hr
  rw [pStep9] at hr
  have hr8 := mem_insSortBy.mp hr
  rw [pStep8] at hr8
  have hr7 := mem_of_mem_dedupByKey hr8
  rw [pStep7] at hr7
  have hr6 := (List.mem_filter.mp hr7).1
  rw [pStep6] at hr6
  exact of_decide_eq_true (List.mem_filter.mp hr6).2

theorem C3_witness :
    ({ purchase_id := 1, client_id := 1, amount := 10, date_purchase := 5,
       product := "a" } : Purchase).client_id ∈ [(1 : Int)] :=
  C3_referential_integrity 100 c3df [1] c3tbl c3st (by decide)
    _ (by decide)

/-! ### C8: monthly growth and cumulative revenue on the example scenario -/

/-- C8: on a fact table whose monthly revenues in sorted `year_month` order
are [100, 150], `aggregate_by_time_monthly` yields month-over-month growth
[null, 50.0] and cumulative revenue [100, 250]. -/
theorem C8_monthly_growth :
    ((aggregate_by_time_monthly c8ft).map fun r =>
      (r.year_month, r.monthly_revenue, r.revenue_mom_growth_pct,
        r.cumulative_revenue))
    = [("2024-01", (100 : ℚ), none, (100 : ℚ)),
       ("2024-02", 150, some 50, 250)] := by decide

/-! ### C2: the recency/lifetime/segment example scenario

The client's purchases span 2024-01-01 to 2024-01-10 (6 purchases), and the
fact table's maximum purchase date is 2024-01-20 (another client's purchase).
`recency_days = 10` and `customer_lifetime_days = 9` as the spec says, but
the segmentation rule `recency_days ≤ 30 ∧ total_purchases ≥ 5 → "VIP"`
fires first (10 ≤ 30 and 6 ≥ 5), so the segment is "VIP", not "Active"
(the spec's parenthetical "recency_days > 30" contradicts its own
`recency_days = 10`). -/

/-- C2 counterexample: the scenario's client is segmented "VIP" by
`aggregate_client_behavior`, not "Active" as claimed. -/
theorem C2_counterexample :
    ((aggregate_client_behavior c2ft).map fun r =>
      (r.client_id, r.recency_days, r.customer_lifetime_days,
        r.client_segment)).head? = some (1, 10, 9, "VIP")
    ∧ "VIP" ≠ "Active" := by decide

/-- C2 amended: the scenario yields `recency_days = 10`,
`customer_lifetime_days = 9` and segment "VIP" (the VIP rule fires first
since `recency_days ≤ 30` and `total_purchases ≥ 5`). -/
theorem C2_amended :
    ((aggregate_client_behavior c2ft).map fun r =>
      (r.client_id, r.recency_days, r.customer_lifetime_days,
        r.client_segment))
    = [(1, 10, 9, "VIP"), (2, 0, 0, "At Risk")] := by decide

/-! ### C5: behaviour of the gold aggregations on a zero-row fact table -/

/-- C5 counterexample: `aggregate_kpi_global` does *not* return a degenerate
result on an empty fact table — its "Average Transactions per Client" entry
divides the row count by the distinct-client count (both 0) and raises
`ZeroDivisionError`. -/
theorem C5_counterexample :
    aggregate_kpi_global ([] : List FactRow) = .error "ZeroDivisionError" := by
  decide

/-- C5 amended: on a zero-row fact table the dimensional, temporal and
client-behaviour aggregations all return empty (degenerate) tables without
raising, while `aggregate_kpi_global` alone raises `ZeroDivisionError`. -/
theorem C5_amended :
    aggregate_by_country ([] : List FactRow) = [] ∧
    aggregate_by_product ([] : List FactRow) = [] ∧
    aggregate_by_time_monthly ([] : List FactRow) = [] ∧
    aggregate_client_behavior ([] : List FactRow) = [] ∧
    (aggregate_kpi_global ([] : List FactRow)).isOk = false := by decide

/-! ### C9: the fact-table left join neither drops nor fans out -/

theorem filter_key_unique_len {cs : List CleanClient}
    (hnd : (cs.map fun c => c.client_id).Nodup) (x : Int) :
    (cs.filter fun c => c.client_id = x).length ≤ 1 := by
  induction cs with
  | nil => simp
  | cons c cs ih =>
    have hc : c.client_id ∉ cs.map fun c => c.client_id :=
      (List.nodup_cons.mp hnd).1
    have hnd' := (List.nodup_cons.mp hnd).2
    by_cases h : c.client_id = x
    · rw [List.filter_cons, if_pos (by simp [h])]
      have : (cs.filter fun c => c.client_id = x) = [] := by
        rw [List.filter_eq_nil_iff]
        intro a ha hax
        exact hc (h ▸ (of_decide_eq_true hax) ▸ List.mem_map_of_mem _ ha)
      simp [this]
    · rw [List.filter_cons, if_neg (by simp [h])]
      exact ih hnd'

/-- C9: when the cleaned clients table has unique `client_id`s, the left join
of `create_fact_purchases` yields exactly one fact row per purchase row, so
the fact table's row count equals the cleaned purchases row count. -/
theorem C9_fact_row_count (ps : List Purchase) (cs : List CleanClient)
    (hnd : (cs.map fun c => c.client_id).Nodup) :
    (create_fact_purchases ps cs).length = ps.length := by
  induction ps with
  | nil => rfl
  | cons p ps ih =>
    show (joinClientRows p cs ++ create_fact_purchases ps cs).length
      = ps.length + 1
    rw [List.length_append, ih]
    have hj : (joinClientRows p cs).length = 1 := by
      rw [joinClientRows]
      cases hf : cs.filter fun c => c.client_id = p.client_id with
      | nil => rfl
      | cons c rest =>
        have hle := filter_key_unique_len hnd p.client_id
        rw [hf] at hle
        have : rest = [] := by
          cases rest with
          | nil => rfl
          | cons d ds => simp at hle
        subst this
        rfl
    omega

theorem C9_witness :
    (create_fact_purchases c9ps c9cs).length = c9ps.length :=
  C9_fact_row_count c9ps c9cs (by decide)

/-! ### C7: revenue shares sum to 100 -/

theorem sum_map_insSortBy (le : α → α → Bool) (f : α → ℚ) (l : List α) :
    ((insSortBy le l).map f).sum = (l.map f).sum :=
  ((insSortBy_perm le l).map f).sum_eq

/-- The share column of a grouped aggregation sums to 100: generic over the
aggregate row type `A`, the group key, and the record constructors, so that
it applies to both the country and the product aggregation by unification.
`mk` builds the grouped row of one key, `upd` fills in its share from the
revenue `rev`, and the sorted-deduplicated key list is exactly the pandas
`groupby` key order. -/
theorem agg_share_sum {α A K : Type} [DecidableEq K]
    (l : List α) (key : α → K) (amt : α → ℚ) (le : K → K → Bool)
    (mk : K → A) (rev : A → ℚ) (upd : A → A) (shareOf : A → ℚ)
    (sortLe : A → A → Bool)
    (hmk : ∀ k, rev (mk k) = ((l.filter fun a => key a = k).map amt).sum)
    (hcomp : ∀ a, shareOf (upd a) = rev a /
      (((insSortBy le (dedupByKey id (l.map key))).map mk).map rev).sum * 100)
    (hpos : 0 < (l.map amt).sum) :
    ((insSortBy sortLe
      (((insSortBy le (dedupByKey id (l.map key))).map mk).map upd)).map
        shareOf).sum = 100 := by
  rw [sum_map_insSortBy, List.map_map]
  simp only [Function.comp_def]
  rw [List.map_congr_left fun a _ => hcomp a, sum_map_div_mul]
  have hS : ((((insSortBy le (dedupByKey id (l.map key))).map mk).map
      rev).sum) = (l.map amt).sum := by
    rw [List.map_map]
    simp only [Function.comp_def]
    rw [List.map_congr_left fun k _ => hmk k, sum_map_insSortBy]
    exact sum_groups key amt _ l (nodup_dedupByKey_id _) fun a ha =>
      (mem_dedupByKey_id _ _).mpr (List.mem_map_of_mem key ha)
  rw [hS, div_self (ne_of_gt hpos), one_mul]

/-- C7: for a non-empty fact table with strictly positive amounts (and, as
the gold stage assumes, referentially valid rows whose joined `country` is
present), the `revenue_share_pct` columns of `aggregate_by_country` and of
`aggregate_by_product` each sum to exactly 100 (with exact rationals the
spec's floating tolerance is not needed). -/
theorem C7_revenue_share_sums (ft : List FactRow) (hne : ft ≠ [])
    (hpos : ∀ r ∈ ft, 0 < r.amount)
    (hcty : ∀ r ∈ ft, (r.country).isSome = true) :
    ((aggregate_by_country ft).map fun r => r.revenue_share_pct).sum = 100 ∧
    ((aggregate_by_product ft).map fun r => r.revenue_share_pct).sum = 100 := by
  have hamts_pos : ∀ q ∈ ft.map (fun r => r.amount), 0 < q := by
    intro q hq
    obtain ⟨r, hr, rfl⟩ := List.mem_map.mp hq
    exact hpos r hr
  have hamts_ne : ft.map (fun r => r.amount) ≠ [] := by
    simpa [List.map_eq_nil_iff] using hne
  have htotal_pos : 0 < (ft.map fun r => r.amount).sum :=
    List.sum_pos _ hamts_pos hamts_ne
  constructor
  · have hfilter : (ft.filter fun r => (r.country).isSome) = ft :=
      List.filter_eq_self.mpr hcty
    simp only [aggregate_by_country, hfilter]
    exact agg_share_sum ft (fun r => (r.country).getD "")
      (fun r => r.amount) strLe _ (fun r : CountryAgg => r.total_revenue) _
      (fun r : CountryAgg => r.revenue_share_pct) _ (fun k => rfl)
      (fun a => rfl) htotal_pos
  · simp only [aggregate_by_product]
    exact agg_share_sum ft (fun r => r.product)
      (fun r => r.amount) strLe _ (fun r : ProductAgg => r.total_revenue) _
      (fun r : ProductAgg => r.revenue_share_pct) _ (fun k => rfl)
      (fun a => rfl) htotal_pos

theorem C7_witness :
    ((aggregate_by_country c8ft).map fun r => r.revenue_share_pct).sum = 100 ∧
    ((aggregate_by_product c8ft).map fun r => r.revenue_share_pct).sum = 100 :=
  C7_revenue_share_sums c8ft (by decide) (by decide) (by decide)

/-! ### C10: the clients cleaning-stats identity -/

theorem cleanClientsData_ok_parts {today : Int} {df : List RawClient}
    {tbl : List CleanClient} {st : CStats}
    (h : cleanClientsData today df = .ok (tbl, st)) :
    ∃ t5, cStep5 (cStep4 (cStep3b today (cStep3a (cStep2 (cStep1 df))))) = .ok t5 ∧
      tbl = cStep7 (cStep6 t5) ∧ df.length ≠ 0 ∧
      st = { initial_rows := (df.length : Int),
             removed_null_critical :=
               (df.length : Int) - (cStep1 df).length,
             removed_duplicates := (t5.length : Int) - (cStep6 t5).length,
             removed_invalid_dates := ((cStep2 (cStep1 df)).length : Int) -
               (cStep3a (cStep2 (cStep1 df))).length,
             removed_invalid_emails :=
               ((cStep3b today (cStep3a (cStep2 (cStep1 df)))).length : Int) -
               (cStep4 (cStep3b today (cStep3a (cStep2 (cStep1 df))))).length,
             final_rows := ((cStep7 (cStep6 t5)).length : Int),
             data_loss_percentage :=
               ((df.length : ℚ) - ((cStep7 (cStep6 t5)).length : ℚ)) /
                 (df.length : ℚ) * 100 } := by
  cases h5 : cStep5 (cStep4 (cStep3b today (cStep3a (cStep2 (cStep1 df))))) with
  | error e =>
    simp only [cleanClientsData, h5, except_bind_error] at h
    exact absurd h (by simp)
  | ok t5 =>
    simp only [cleanClientsData, h5, except_bind_ok] at h
    by_cases h0 : df.length = 0
    · rw [if_pos h0] at h
      exact absurd h (by simp)
    · rw [if_neg h0] at h
      simp only [Except.ok.injEq, Prod.mk.injEq] at h
      exact ⟨t5, rfl, h.1.symm, h0, h.2.symm⟩

/-- C10: for every raw clients table (on which the cleaning succeeds), the
returned stats satisfy `initial_rows - final_rows ≥ removed_null_critical +
removed_invalid_dates + removed_invalid_emails + removed_duplicates`, with
equality exactly when no row was dropped by the (uncounted) future-date
guard, while `data_loss_percentage = (initial - final) / initial * 100`
still reflects those uncounted rows. -/
theorem C10_stats_discrepancy (today : Int) (df : List RawClient)
    (tbl : List CleanClient) (st : CStats)
    (h : cleanClientsData today df = .ok (tbl, st)) :
    st.initial_rows - st.final_rows ≥
      st.removed_null_critical + st.removed_invalid_dates +
      st.removed_invalid_emails + st.removed_duplicates ∧
    (st.initial_rows - st.final_rows =
      st.removed_null_critical + st.removed_invalid_dates +
      st.removed_invalid_emails + st.removed_duplicates
      ↔ cFutureDropped today df = 0) ∧
    st.data_loss_percentage =
      ((st.initial_rows : ℚ) - (st.final_rows : ℚ)) /
        (st.initial_rows : ℚ) * 100 := by
  obtain ⟨t5, h5, htbl, h0, hst⟩ := cleanClientsData_ok_parts h
  have hlen2 : (cStep2 (cStep1 df)).length = (cStep1 df).length :=
    List.length_map _ _
  have hlen3a : (cStep3a (cStep2 (cStep1 df))).length ≤
      (cStep2 (cStep1 df)).length := List.length_filter_le _ _
  have hlen3b : (cStep3b today (cStep3a (cStep2 (cStep1 df)))).length ≤
      (cStep3a (cStep2 (cStep1 df))).length := List.length_filter_le _ _
  have hlen4 : (cStep4 (cStep3b today (cStep3a (cStep2 (cStep1 df))))).length ≤
      (cStep3b today (cStep3a (cStep2 (cStep1 df)))).length := by
    have h1 := List.length_filter_le (fun r => emailMatches r.email)
      ((cStep3b today (cStep3a (cStep2 (cStep1 df)))).map cNormRow)
    rw [List.length_map] at h1
    exact h1
  have hlen5 : t5.length =
      (cStep4 (cStep3b today (cStep3a (cStep2 (cStep1 df))))).length :=
    mapExcept_ok_length h5
  have hlen6 : (cStep6 t5).length ≤ t5.length := by
    rw [cStep6]
    calc (dedupByKey (fun c => c.email)
            (dedupByKey (fun c => c.client_id) t5)).length
        ≤ (dedupByKey (fun c => c.client_id) t5).length :=
          length_dedupByKey_le _ _
      _ ≤ t5.length := length_dedupByKey_le _ _
  have hlen7 : (cStep7 (cStep6 t5)).length = (cStep6 t5).length :=
    length_insSortBy _ _
  have hlen1 : (cStep1 df).length ≤ df.length := List.length_filter_le _ _
  have hfut : cFutureDropped today df =
      ((cStep3a (cStep2 (cStep1 df))).length : Int) -
      ((cStep3b today (cStep3a (cStep2 (cStep1 df)))).length : Int) := rfl
  subst hst
  refine ⟨?_, ?_, ?_⟩
  · dsimp only
    omega
  · dsimp only
    rw [hfut]
    omega
  · dsimp only
    push_cast
    ring

theorem C10_witness :
    c10st.initial_rows - c10st.final_rows ≥
      c10st.removed_null_critical + c10st.removed_invalid_dates +
      c10st.removed_invalid_emails + c10st.removed_duplicates ∧
    (c10st.initial_rows - c10st.final_rows =
      c10st.removed_null_critical + c10st.removed_invalid_dates +
      c10st.removed_invalid_emails + c10st.removed_duplicates
      ↔ cFutureDropped 10 c10df = 0) ∧
    c10st.data_loss_percentage =
      ((c10st.initial_rows : ℚ) - (c10st.final_rows : ℚ)) /
        (c10st.initial_rows : ℚ) * 100 :=
  C10_stats_discrepancy 10 c10df c10tbl c10st (by decide)

/-! ### C1: the outlier bound, and over which table it is computed -/

/-- C1 counterexample: cleaning `c1df` succeeds, yet the returned table does
*not* satisfy the claimed invariant "every amount lies within
`[Q1 - 3*IQR, Q3 + 3*IQR]` computed over that same returned table": the
bounds are computed *before* outlier removal (over the state after the
referential-integrity filter), and re-quantiling the returned table shrinks
the IQR to 0. -/
theorem C1_counterexample :
    (cleanPurchasesData 100 c1df [1]).isOk = true ∧
    outlierClaimHolds (okTable (cleanPurchasesData 100 c1df [1])) = false := by
  decide

/-- C1 amended: every row of the cleaned purchases table has an amount
within `[Q1 - 3*IQR, Q3 + 3*IQR]` where Q1 and Q3 are the 25th/75th
percentiles of the amount column of the table as it stood *after the
referential-integrity filter of step 6 and before outlier removal* (not of
the returned table). -/
theorem C1_amended_bounds (today : Int) (df : List RawPurchase)
    (ids : List Int) (tbl : List Purchase) (st : PStats) (t6 : List Purchase)
    (h : cleanPurchasesData today df ids = .ok (tbl, st))
    (h6 : pAfter6 today df ids = .ok t6) :
    ∀ r ∈ tbl, (pOutlierBounds (t6.map fun p => p.amount)).1 ≤ r.amount ∧
      r.amount ≤ (pOutlierBounds (t6.map fun p => p.amount)).2 := by
  obtain ⟨t4, h4, htbl, h0⟩ := cleanPurchasesData_ok_parts h
  have ht6 : t6 = pStep6 ids (pStep5 t4) := by
    rw [pAfter6_ok_of_parts h4] at h6
    exact (Except.ok.injEq _ _).mp h6.symm
  intro r hr
  rw [htbl] at hr
  rw [pStep9] at hr
  have hr8 := mem_insSortBy.mp hr
  rw [pStep8] at hr8
  have hr7 := mem_of_mem_dedupByKey hr8
  rw [pStep7] at hr7
  have hmem := List.mem_filter.mp hr7
  have hbound := of_decide_eq_true hmem.2
  rw [ht6]
  exact hbound

theorem C1_witness :
    ((pOutlierBounds (c1t6.map fun p => p.amount)).1 ≤ c1row.amount ∧
      c1row.amount ≤ (pOutlierBounds (c1t6.map fun p => p.amount)).2) :=
  C1_amended_bounds 100 c1df [1] c1tbl c1st c1t6 (by decide) (by decide)
    c1row (by decide)

/-! ### C4: which row defects are dropped and which raise -/

theorem except_isOk_exists {e : Except String α} (h : e.isOk = true) :
    ∃ a, e = .ok a := by
  cases e with
  | error s => rw [except_isOk_error] at h; exact absurd h (by simp)
  | ok a => exact ⟨a, rfl⟩

theorem coerceIntCell_isOk {c : RawCell} (hn : c.isNull = false)
    (hs : c.isStr = false) : (coerceIntCell c).isOk = true := by
  cases c with
  | null => simp [RawCell.isNull] at hn
  | num q => exact except_isOk_ok _
  | strv s => simp [RawCell.isStr] at hs

theorem coerceFloatCell_isOk {c : RawCell} (hs : c.isStr = false) :
    (coerceFloatCell c).isOk = true := by
  cases c with
  | null => exact except_isOk_ok _
  | num q => exact except_isOk_ok _
  | strv s => simp [RawCell.isStr] at hs

theorem coercePurchase_isOk {r : RawPurchase}
    (hpn : r.purchase_id.isNull = false) (hps : r.purchase_id.isStr = false)
    (hcn : r.client_id.isNull = false) (hcs : r.client_id.isStr = false)
    (has : r.amount.isStr = false) :
    (coercePurchase r).isOk = true := by
  obtain ⟨pid, hp⟩ := except_isOk_exists (coerceIntCell_isOk hpn hps)
  obtain ⟨cid, hc⟩ := except_isOk_exists (coerceIntCell_isOk hcn hcs)
  obtain ⟨amt, ha⟩ := except_isOk_exists (coerceFloatCell_isOk has)
  simp only [coercePurchase, hp, hc, ha, except_bind_ok]
  exact except_isOk_ok _

theorem coerceClient_isOk {r : RawClient}
    (hcn : r.client_id.isNull = false) (hcs : r.client_id.isStr = false) :
    (coerceClient r).isOk = true := by
  obtain ⟨cid, hc⟩ := except_isOk_exists (coerceIntCell_isOk hcn hcs)
  simp only [coerceClient, hc, except_bind_ok]
  exact except_isOk_ok _

theorem mem_pPrep {today : Int} {df : List RawPurchase} {r : RawPurchase}
    (hr : r ∈ pStep3b today (pStep3a (pStep2 (pStep1 df)))) :
    ∃ r0 ∈ df, r = pFillRow r0 ∧ pCritOk r0 = true := by
  rw [pStep3b] at hr
  have hr1 := (List.mem_filter.mp hr).1
  rw [pStep3a] at hr1
  have hr2 := (List.mem_filter.mp hr1).1
  rw [pStep2] at hr2
  obtain ⟨r0, hr0, heq⟩ := List.mem_map.mp hr2
  rw [pStep1] at hr0
  have h01 := List.mem_filter.mp hr0
  exact ⟨r0, h01.1, heq.symm, h01.2⟩

theorem mem_cPrep {today : Int} {df : List RawClient} {r : RawClient}
    (hr : r ∈ cStep4 (cStep3b today (cStep3a (cStep2 (cStep1 df))))) :
    ∃ r0 ∈ df, r = cNormRow (cFillRow r0) ∧ cCritOk r0 = true := by
  rw [cStep4] at hr
  have hr4 := (List.mem_filter.mp hr).1
  obtain ⟨r1, hr1, heq⟩ := List.mem_map.mp hr4
  rw [cStep3b] at hr1
  have hr2 := (List.mem_filter.mp hr1).1
  rw [cStep3a] at hr2
  have hr3 := (List.mem_filter.mp hr2).1
  rw [cStep2] at hr3
  obtain ⟨r0, hr0, heq0⟩ := List.mem_map.mp hr3
  rw [cStep1] at hr0
  have h01 := List.mem_filter.mp hr0
  exact ⟨r0, h01.1, by rw [← heq, ← heq0], h01.2⟩

theorem cleanPurchases_isOk_of_wellTyped (today : Int)
    (df : List RawPurchase) (ids : List Int) (hne : df ≠ [])
    (hwt : ∀ r ∈ df, r.purchase_id.isStr = false ∧
      r.client_id.isStr = false ∧ r.amount.isStr = false) :
    (cleanPurchasesData today df ids).isOk = true := by
  have h4 : (pStep4 (pStep3b today (pStep3a (pStep2 (pStep1 df))))).isOk
      = true := by
    rw [pStep4]
    apply mapExcept_isOk
    intro r hr
    obtain ⟨r0, hr0, rfl, hcrit⟩ := mem_pPrep hr
    have hw := hwt r0 hr0
    simp only [pCritOk, Bool.and_eq_true, Bool.not_eq_true'] at hcrit
    exact coercePurchase_isOk hcrit.1.1.1 hw.1 hcrit.1.1.2 hw.2.1 hw.2.2
  obtain ⟨t4, ht4⟩ := except_isOk_exists h4
  simp only [cleanPurchasesData, ht4, except_bind_ok]
  rw [if_neg fun h => hne (List.length_eq_zero.mp h)]
  exact except_isOk_ok _

theorem cleanClients_isOk_of_wellTyped (today : Int) (df : List RawClient)
    (hne : df ≠ []) (hwt : ∀ r ∈ df, r.client_id.isStr = false) :
    (cleanClientsData today df).isOk = true := by
  have h5 : (cStep5 (cStep4 (cStep3b today
      (cStep3a (cStep2 (cStep1 df)))))).isOk = true := by
    rw [cStep5]
    apply mapExcept_isOk
    intro r hr
    obtain ⟨r0, hr0, rfl, hcrit⟩ := mem_cPrep hr
    have hw := hwt r0 hr0
    simp only [cCritOk, Bool.and_eq_true, Bool.not_eq_true'] at hcrit
    exact coerceClient_isOk hcrit.1 hw
  obtain ⟨t5, ht5⟩ := except_isOk_exists h5
  simp only [cleanClientsData, ht5, except_bind_ok]
  rw [if_neg fun h => hne (List.length_eq_zero.mp h)]
  exact except_isOk_ok _

/-- C4 counterexample: a row whose `amount` is the non-numeric string "abc"
makes `clean_purchases_data` raise (`astype(float)` applies `float()` and
raises `ValueError`) instead of silently dropping the row. -/
theorem C4_counterexample :
    (cleanPurchasesData 10 c4badDf [1]).isOk = false := by decide

/-- C4 amended: unparsable dates are coerced to NaT and dropped, invalid
emails are dropped, and the cleaning never raises on a nonempty table all of
whose `purchase_id`/`client_id`/`amount` (resp. `client_id`) cells are
numeric or null — but a *string* in those columns that `int()`/`float()`
cannot parse raises a coercion error, and an empty input raises
`ZeroDivisionError` in the final stats; the duplicate assertion of
`quality_check_final` remains the stage's other fatal abort. -/
theorem C4_amended :
    (∀ (today : Int) (df : List RawPurchase) (ids : List Int), df ≠ [] →
      (∀ r ∈ df, r.purchase_id.isStr = false ∧ r.client_id.isStr = false ∧
        r.amount.isStr = false) →
      (cleanPurchasesData today df ids).isOk = true) ∧
    (∀ (today : Int) (df : List RawClient), df ≠ [] →
      (∀ r ∈ df, r.client_id.isStr = false) →
      (cleanClientsData today df).isOk = true) :=
  ⟨cleanPurchases_isOk_of_wellTyped, cleanClients_isOk_of_wellTyped⟩

theorem C4_witness :
    (cleanPurchasesData 10 c3df [1]).isOk = true ∧
    (cleanClientsData 10 c10df).isOk = true :=
  ⟨C4_amended.1 10 c3df [1] (by decide) (by decide),
   C4_amended.2 10 c10df (by decide) (by decide)⟩

/-! ### C6: single-machine (pandas) vs distributed (Spark) purchase cleaning

`approxQuantile` returns elements of the column (`approxQuantileMem`), while
pandas interpolates between elements, so the two engines' outlier bounds
need not coincide; when they do coincide (and the input is nonempty and
numerically typed) the two pipelines produce identical tables and stats. -/

/-- C6 counterexample: on `c6df` the steps-1-6 amount column is nonempty, and
*no* pair of its elements — i.e. no outcome `approxQuantile` is allowed to
return — reproduces the pandas interpolated bound pair, so the two engines'
outlier bounds differ on this input. -/
theorem C6_counterexample :
    (((sAmountCol 100 c6df [1]).all fun q1 =>
      (sAmountCol 100 c6df [1]).all fun q3 =>
        decide (boundsFrom q1 q3 ≠
          pOutlierBounds ((okList (pAfter6 100 c6df [1])).map fun p =>
            p.amount))) = true)
    ∧ sAmountCol 100 c6df [1] ≠ [] := by decide

theorem insSorted_map {f : α → α'} {le1 : α → α → Bool}
    {le2 : α' → α' → Bool} (h : ∀ a b, le2 (f a) (f b) = le1 a b) (x : α) :
    ∀ l : List α, insSorted le2 (f x) (l.map f) = (insSorted le1 x l).map f := by
  intro l
  induction l with
  | nil => rfl
  | cons y ys ih =>
    simp only [List.map_cons, insSorted, h]
    cases hxy : le1 x y with
    | true => simp
    | false => simp [ih]

theorem insSortBy_map {f : α → α'} {le1 : α → α → Bool}
    {le2 : α' → α' → Bool} (h : ∀ a b, le2 (f a) (f b) = le1 a b) :
    ∀ l : List α, insSortBy le2 (l.map f) = (insSortBy le1 l).map f := by
  intro l
  induction l with
  | nil => rfl
  | cons x xs ih =>
    simp only [List.map_cons, insSortBy, ih]
    exact insSorted_map h x (insSortBy le1 xs)

theorem dedupByKeyAux_map [DecidableEq β] [DecidableEq γ] (f : α → α')
    (k1 : α → β) (k2 : α' → γ) (g : β → γ)
    (hg : ∀ {b b' : β}, g b = g b' → b = b')
    (hk : ∀ a, k2 (f a) = g (k1 a)) :
    ∀ (seen : List β) (l : List α),
      dedupByKeyAux k2 (seen.map g) (l.map f)
        = (dedupByKeyAux k1 seen l).map f := by
  intro seen l
  induction l generalizing seen with
  | nil => rfl
  | cons x xs ih =>
    simp only [List.map_cons, dedupByKeyAux, hk]
    by_cases hx : k1 x ∈ seen
    · rw [if_pos (List.mem_map_of_mem g hx), if_pos hx]
      exact ih seen
    · have hnot : g (k1 x) ∉ seen.map g := by
        intro hmem
        obtain ⟨b, hb, hgb⟩ := List.mem_map.mp hmem
        exact hx (hg hgb ▸ hb)
      rw [if_neg hnot, if_neg hx]
      have hstep := ih (k1 x :: seen)
      rw [List.map_cons] at hstep
      rw [hstep, List.map_cons]

theorem dedupByKey_map [DecidableEq β] [DecidableEq γ] (f : α → α')
    (k1 : α → β) (k2 : α' → γ) (g : β → γ)
    (hg : ∀ {b b' : β}, g b = g b' → b = b')
    (hk : ∀ a, k2 (f a) = g (k1 a)) (l : List α) :
    dedupByKey k2 (l.map f) = (dedupByKey k1 l).map f :=
  dedupByKeyAux_map f k1 k2 g hg hk [] l

theorem castPurchase_eq_toS {r : RawPurchase} {p : Purchase}
    (hpn : r.purchase_id.isNull = false) (hps : r.purchase_id.isStr = false)
    (hcn : r.client_id.isNull = false) (hcs : r.client_id.isStr = false)
    (han : r.amount.isNull = false) (has : r.amount.isStr = false)
    (hco : coercePurchase r = .ok p) :
    castPurchase r = purchaseToS p := by
  rcases hrp : r.purchase_id with _ | q1 | s1
  · rw [hrp] at hpn; simp [RawCell.isNull] at hpn
  case strv => rw [hrp] at hps; simp [RawCell.isStr] at hps
  rcases hrc : r.client_id with _ | q2 | s2
  · rw [hrc] at hcn; simp [RawCell.isNull] at hcn
  case strv => rw [hrc] at hcs; simp [RawCell.isStr] at hcs
  rcases hra : r.amount with _ | q3 | s3
  · rw [hra] at han; simp [RawCell.isNull] at han
  case strv => rw [hra] at has; simp [RawCell.isStr] at has
  simp only [coercePurchase, hrp, hrc, hra, coerceIntCell, coerceFloatCell,
    except_bind_ok, Except.ok.injEq] at hco
  rw [castPurchase, hrp, hrc, hra, ← hco]
  rfl

theorem sStep4_eq_map {l : List RawPurchase} {t4 : List Purchase}
    (hl : ∀ r ∈ l,
      (r.purchase_id.isNull = false ∧ r.purchase_id.isStr = false) ∧
      (r.client_id.isNull = false ∧ r.client_id.isStr = false) ∧
      (r.amount.isNull = false ∧ r.amount.isStr = false))
    (h : pStep4 l = .ok t4) :
    sStep4 l = t4.map purchaseToS := by
  rw [pStep4] at h
  induction l generalizing t4 with
  | nil =>
    have : ([] : List Purchase) = t4 := by simpa [mapExcept] using h
    rw [← this]
    rfl
  | cons x xs ih =>
    rw [mapExcept_cons] at h
    cases hx : coercePurchase x with
    | error e => rw [hx, except_bind_error] at h; exact absurd h (by simp)
    | ok p =>
      rw [hx, except_bind_ok] at h
      cases hxs : mapExcept coercePurchase xs with
      | error e => rw [hxs, except_bind_error] at h; exact absurd h (by simp)
      | ok ps =>
        rw [hxs, except_bind_ok] at h
        have ht : p :: ps = t4 := by simpa using h
        have hx1 := hl x (List.mem_cons_self x xs)
        rw [← ht, sStep4, List.map_cons, List.map_cons]
        rw [show List.map castPurchase xs = sStep4 xs from rfl]
        rw [ih (fun r hr => hl r (List.mem_cons_of_mem x hr)) hxs]
        rw [castPurchase_eq_toS hx1.1.1 hx1.1.2 hx1.2.1.1 hx1.2.1.2
          hx1.2.2.1 hx1.2.2.2 hx]

theorem sStep5_map (t : List Purchase) :
    sStep5 (t.map purchaseToS) = (pStep5 t).map purchaseToS := by
  rw [sStep5, pStep5, filter_map_comm]
  rfl

theorem sStep6_map (ids : List Int) (t : List Purchase) :
    sStep6 ids (t.map purchaseToS) = (pStep6 ids t).map purchaseToS := by
  rw [sStep6, pStep6, filter_map_comm]
  rfl

theorem sStep7_map (q1 q3 : ℚ) (t : List Purchase)
    (hb : boundsFrom q1 q3 = pOutlierBounds (t.map fun p => p.amount)) :
    sStep7 q1 q3 (t.map purchaseToS) = (pStep7 t).map purchaseToS := by
  by_cases ht : t = []
  · subst ht; rfl
  · rw [sStep7, if_neg (by simpa [List.isEmpty_iff, List.map_eq_nil_iff]
      using ht)]
    rw [pStep7, ← hb, filter_map_comm]
    rfl

theorem sStep8_map (t : List Purchase) :
    sStep8 (t.map purchaseToS) = (pStep8 t).map purchaseToS := by
  rw [sStep8, pStep8]
  exact dedupByKey_map purchaseToS (fun p : Purchase => p.purchase_id)
    (fun p : SPurchase => p.purchase_id) (Option.some : Int → Option Int)
    (fun h => Option.some.inj h) (fun p => rfl) t

theorem sStep9_map (t : List Purchase) :
    sStep9 (t.map purchaseToS) = (pStep9 t).map purchaseToS := by
  rw [sStep9, pStep9]
  exact insSortBy_map (fun a b => rfl) t

/-- C6 amended: the Spark variant applies the same cleaning pipeline and, on
a nonempty numerically-typed raw table, produces exactly the pandas cleaned
table (up to the nullable row representation) and identical stats *whenever
its approximate quantiles coincide with the pandas interpolated quantiles*;
identity of the outlier bounds for every input is not guaranteed (the
counterexample), only the conditional equivalence is. -/
theorem C6_amended (today : Int) (df : List RawPurchase) (ids : List Int)
    (q1 q3 : ℚ) (hne : df ≠ [])
    (hwt : ∀ r ∈ df, r.purchase_id.isStr = false ∧
      r.client_id.isStr = false ∧ r.amount.isStr = false)
    (t6 : List Purchase) (h6 : pAfter6 today df ids = .ok t6)
    (hq1 : q1 = panQuantile (t6.map fun p => p.amount) (1/4))
    (hq3 : q3 = panQuantile (t6.map fun p => p.amount) (3/4)) :
    (cleanPurchasesData today df ids).isOk = true ∧
    sparkCleanPurchasesData today df ids q1 q3 =
      ((okTable (cleanPurchasesData today df ids)).map purchaseToS,
        okStats (cleanPurchasesData today df ids)) := by
  have hok := cleanPurchases_isOk_of_wellTyped today df ids hne hwt
  refine ⟨hok, ?_⟩
  cases h4 : pStep4 (pStep3b today (pStep3a (pStep2 (pStep1 df)))) with
  | error e =>
    rw [cleanPurchasesData] at hok
    rw [h4, except_bind_error, except_isOk_error] at hok
    exact absurd hok (by simp)
  | ok t4 =>
    have ht6 : t6 = pStep6 ids (pStep5 t4) := by
      rw [pAfter6_ok_of_parts h4] at h6
      exact (Except.ok.injEq _ _).mp h6.symm
    have hwtX : ∀ r ∈ pStep3b today (pStep3a (pStep2 (pStep1 df))),
        (r.purchase_id.isNull = false ∧ r.purchase_id.isStr = false) ∧
        (r.client_id.isNull = false ∧ r.client_id.isStr = false) ∧
        (r.amount.isNull = false ∧ r.amount.isStr = false) := by
      intro r hr
      obtain ⟨r0, hr0, rfl, hcrit⟩ := mem_pPrep hr
      have hw := hwt r0 hr0
      simp only [pCritOk, Bool.and_eq_true, Bool.not_eq_true'] at hcrit
      exact ⟨⟨hcrit.1.1.1, hw.1⟩, ⟨hcrit.1.1.2, hw.2.1⟩,
        ⟨hcrit.1.2, hw.2.2⟩⟩
    have hmap4 : sStep4 (pStep3b today (pStep3a (pStep2 (pStep1 df))))
        = t4.map purchaseToS := sStep4_eq_map hwtX h4
    have hb : boundsFrom q1 q3
        = pOutlierBounds ((pStep6 ids (pStep5 t4)).map fun p => p.amount) := by
      rw [hq1, hq3, ht6]
      rfl
    have hmap5 := sStep5_map t4
    have hmap6 := sStep6_map ids (pStep5 t4)
    have hmap7 := sStep7_map q1 q3 (pStep6 ids (pStep5 t4)) hb
    have hmap8 := sStep8_map (pStep7 (pStep6 ids (pStep5 t4)))
    have hmap9 := sStep9_map (pStep8 (pStep7 (pStep6 ids (pStep5 t4))))
    have h0 : df.length ≠ 0 := fun h => hne (List.length_eq_zero.mp h)
    simp only [cleanPurchasesData, h4, except_bind_ok, if_neg h0, okTable,
      okStats]
    rw [sparkCleanPurchasesData]
    rw [hmap4, hmap5, hmap6, hmap7, hmap8, hmap9]
    have hl4 : (t4.map purchaseToS).length = t4.length := List.length_map _ _
    have hl5 : ((pStep5 t4).map purchaseToS).length = (pStep5 t4).length :=
      List.length_map _ _
    have hl6 : ((pStep6 ids (pStep5 t4)).map purchaseToS).length
        = (pStep6 ids (pStep5 t4)).length := List.length_map _ _
    have hl7 : ((pStep7 (pStep6 ids (pStep5 t4))).map purchaseToS).length
        = (pStep7 (pStep6 ids (pStep5 t4))).length := List.length_map _ _
    have hl8 : ((pStep8 (pStep7 (pStep6 ids (pStep5 t4)))).map
        purchaseToS).length
        = (pStep8 (pStep7 (pStep6 ids (pStep5 t4)))).length :=
      List.length_map _ _
    have hl9 : ((pStep9 (pStep8 (pStep7 (pStep6 ids
        (pStep5 t4))))).map purchaseToS).length
        = (pStep9 (pStep8 (pStep7 (pStep6 ids (pStep5 t4))))).length :=
      List.length_map _ _
    rw [hl4, hl5, hl6, hl7, hl8, hl9, if_pos (Nat.pos_of_ne_zero h0)]

theorem C6_witness :
    (cleanPurchasesData 100 c6wDf [1]).isOk = true ∧
    sparkCleanPurchasesData 100 c6wDf [1] 10 10 =
      ((okTable (cleanPurchasesData 100 c6wDf [1])).map purchaseToS,
        okStats (cleanPurchasesData 100 c6wDf [1])) :=
  C6_amended 100 c6wDf [1] 10 10 (by decide) (by decide) c6w6 (by decide)
    (by decide) (by decide)

end BigData
